import Mathlib

/-! ONNX Runtime tutorial tools: embedding and verified properties.

A shallow embedding of the command-line tools of the repository

* `3_onnx_model_info/main.cpp` (model introspection),
* `4_linear/main.cpp`, `4_linear/main2.cpp`, `4_linear/main3.cpp` (inference on the
  doubling model `data/linear/linear.onnx`),

followed by theorems about them.

Each tool is a function of its command line and of the responses of the libraries it
calls (the C++ standard library and ONNX Runtime, gathered in `Runtime`); its result is
the ordered list of the events it produces (lines written, library calls made) and its
exit code.
-/

namespace OrtTutorial

/-! ## `float` values -/

/-- A value of the C++ type `float`: a finite number (its exact rational value), an
infinity with its sign, or a NaN.  Every finite `float` is a rational, so statements
quantified over `fin q` for all `q` cover every finite `float`. -/
inductive F32 where
  | fin (q : ℚ)
  | inf (negative : Bool)
  | nan
  deriving DecidableEq

/-- The largest finite `float`, `(2^24 - 1) * 2^104`. -/
def FLT_MAX : ℚ := (2 ^ 24 - 1) * 2 ^ 104

/-- The smallest value of `int` (32 bits). -/
def INT_MIN : ℤ := -2147483648

/-- The largest value of `int` (32 bits). -/
def INT_MAX : ℤ := 2147483647

/-- The product `x * 2.0f`: doubling a finite `float` is exact unless the result
exceeds `FLT_MAX`, in which case it is the infinity of the same sign. -/
def mul2 : F32 → F32
  | .fin q => if |2 * q| ≤ FLT_MAX then .fin (2 * q) else .inf (decide (q < 0))
  | .inf s => .inf s
  | .nan => .nan

/-- Nearest integer to a rational, halfway cases away from zero. -/
def cround (q : ℚ) : ℤ :=
  if 0 ≤ q then ⌊q + 1 / 2⌋ else -⌊-q + 1 / 2⌋

/-- The function `std::round` on `float`: the result is again a `float`. -/
def round : F32 → F32
  | .fin q => .fin (cround q)
  | .inf s => .inf s
  | .nan => .nan

/-- Truncation of a rational towards zero. -/
def ctrunc (q : ℚ) : ℤ := Int.tdiv q.num q.den

/-- Conversion of a `float` to `int` (as in `int n = std::round(v);`): the value is
truncated towards zero; when the truncated value is not a value of `int` (or the
`float` is not finite) the language does not define the result, and the platform's
result `oor v` is taken. -/
def floatToInt (oor : F32 → ℤ) : F32 → ℤ
  | .fin q => if INT_MIN ≤ ctrunc q ∧ ctrunc q ≤ INT_MAX then ctrunc q else oor (.fin q)
  | v => oor v

/-- Number of low bits to drop so that `a` fits in 24 bits (`fuel` bounds the search;
an `int` has 32 bits). -/
def excessBits : ℕ → ℕ → ℕ
  | 0, _ => 0
  | fuel + 1, a => if a < 2 ^ 24 then 0 else excessBits fuel (a / 2) + 1

/-- Nearest integer with at most 24 significant bits, ties to the even significand:
the integers a `float` holds exactly are those below `2^24` in magnitude and, above,
the multiples of `2^k` with a 24-bit quotient. -/
def rne24 (n : ℤ) : ℤ :=
  let a := n.natAbs
  let k := excessBits 32 a
  let q := a / 2 ^ k
  let r := a % 2 ^ k
  let q1 := if 2 ^ k < 2 * r ∨ (2 * r = 2 ^ k ∧ q % 2 = 1) then q + 1 else q
  Int.sign n * ((q1 * 2 ^ k : ℕ) : ℤ)

/-- Conversion of an `int` to `float` (the usual arithmetic conversion applied by
`int == float`): exact below `2^24` in magnitude, otherwise rounded to 24 significant
bits. -/
def intToFloat (n : ℤ) : F32 := .fin ((rne24 n : ℤ) : ℚ)

/-- The comparison `a == b` on `float`: a NaN equals nothing, not even itself. -/
def feq : F32 → F32 → Bool
  | .fin a, .fin b => decide (a = b)
  | .inf s, .inf t => s == t
  | _, _ => false

/-! ## Library values, calls and observable events -/

/-- The two exceptions `std::stof` throws, with their `what()` text. -/
inductive StofError where
  | invalid_argument (what : String)
  | out_of_range (what : String)
  deriving DecidableEq

/-- Text returned by `what()`. -/
def StofError.what : StofError → String
  | .invalid_argument w => w
  | .out_of_range w => w

/-- An exception raised by a library call: an `Ort::Exception`, or another
`std::exception`; both are caught by `catch (const std::exception&)`. -/
inductive CppException where
  | ort (what : String)
  | std (what : String)
  deriving DecidableEq

/-- Text returned by `what()`. -/
def CppException.what : CppException → String
  | .ort w => w
  | .std w => w

deriving instance DecidableEq for Except

/-- An `Ort::Value`: a tensor of `float` with its element buffer and its shape, or a
value that is not a tensor (`what` is the text of the exception raised when tensor data
is requested from it). -/
inductive OrtValue where
  | tensor (data : List F32) (shape : List ℤ)
  | nonTensor (what : String)
  deriving DecidableEq

/-- The method `Ort::Value::IsTensor`. -/
def OrtValue.IsTensor : OrtValue → Bool
  | .tensor _ _ => true
  | .nonTensor _ => false

/-- The method `GetTensorMutableData<float>`: the element buffer of a tensor; an
`Ort::Exception` for a value that is not a tensor. -/
def OrtValue.GetTensorMutableData : OrtValue → Except CppException (List F32)
  | .tensor data _ => .ok data
  | .nonTensor w => .error (.ort w)

/-- One operand of `<<` on an output stream. -/
inductive Item where
  | str (s : String)
  | flt (v : F32)
  | int (n : ℤ)
  | size (n : ℕ)
  deriving DecidableEq

/-- What a tool does that can be observed: a line on `std::cout` or on `std::cerr`
(the operands streamed up to `std::endl`), and the calls into ONNX Runtime with their
arguments. -/
inductive Event where
  | out (line : List Item)
  | err (line : List Item)
  | env (logid : String)
  | session (modelPath : String)
  | createTensor (data : List F32) (count : ℕ) (shape : List ℤ)
  | run (inputNames : List String) (inputs : List OrtValue) (outputNames : List String)
  deriving DecidableEq

/-- How a run of a tool ends: `return code` from `main` after the events `trace`; an
exception no handler catches (`std::terminate`); or behaviour the language leaves
undefined (an element read past the end of a buffer). -/
inductive Outcome where
  | exit (trace : List Event) (code : ℤ)
  | terminate (trace : List Event)
  | undefined (trace : List Event)
  deriving DecidableEq

/-- The events of a run, whatever its end. -/
def Outcome.trace : Outcome → List Event
  | .exit trace _ => trace
  | .terminate trace => trace
  | .undefined trace => trace

/-- The enumeration `ONNXTensorElementDataType` of ONNX Runtime, restricted to the
enumerators `get_tensor_data_type_string` names; `other` stands for any further value. -/
inductive ONNXTensorElementDataType where
  | UNDEFINED | FLOAT | UINT8 | INT8 | UINT16 | INT16 | INT32 | INT64 | STRING | BOOL
  | FLOAT16 | DOUBLE | UINT32 | UINT64 | COMPLEX64 | COMPLEX128 | BFLOAT16
  | other (code : ℕ)
  deriving DecidableEq

/-- What `GetTensorTypeAndShapeInfo()` gives for one input or output of a model: the
results of `GetElementType()`, `GetShape()` and `GetElementCount()`. -/
structure TensorTypeAndShapeInfo where
  elementType : ONNXTensorElementDataType
  shape : List ℤ
  elementCount : ℕ
  deriving DecidableEq

/-- One declared input or output of a model: its name (`GetInputNameAllocated(i)`,
`GetOutputNameAllocated(i)`) and its type information (`GetInputTypeInfo(i)`,
`GetOutputTypeInfo(i)`). -/
structure Node where
  name : String
  info : TensorTypeAndShapeInfo
  deriving DecidableEq

/-- A loaded model (`Ort::Session`): the declared inputs and outputs in declaration
order (`GetInputCount()` and `GetOutputCount()` are the lengths), and `Run`, given the
input names, the input values and the requested output names. -/
structure Session where
  inputs : List Node
  outputs : List Node
  Run : List String → List OrtValue → List String → Except CppException (List OrtValue)

/-- The declared input names, in declaration order. -/
def Session.inputNames (session : Session) : List String :=
  session.inputs.map Node.name

/-- The declared output names, in declaration order. -/
def Session.outputNames (session : Session) : List String :=
  session.outputs.map Node.name

/-- The responses of the libraries the tools call.
* `stof`: `std::stof` on one argument;
* `oor`: the platform's result for a `float`-to-`int` conversion out of range;
* `createEnv`: the constructor `Ort::Env(level, logid)`;
* `createSession`: the constructor `Ort::Session(env, path, options)`;
* `createTensor`: `Ort::Value::CreateTensor<float>(info, data, count, shape, rank)`. -/
structure Runtime where
  stof : String → Except StofError F32
  oor : F32 → ℤ
  createEnv : String → Except CppException Unit
  createSession : String → Except CppException Session
  createTensor : List F32 → ℕ → List ℤ → Except CppException OrtValue

/-- The value of `EXIT_SUCCESS`. -/
def EXIT_SUCCESS : ℤ := 0

/-- The value of `EXIT_FAILURE`. -/
def EXIT_FAILURE : ℤ := 1

/-! ## `4_linear/main.cpp` -/

/-- Source: the handler `catch (const std::exception& e)` of `main.cpp` and of
`main3.cpp`: one line on `std::cerr`, then `return 1`. -/
def catchStd (trace : List Event) (what : String) : Outcome :=
  .exit (trace ++ [.err [.str "Error: ", .str what]]) 1

/-- Source: the conditional expression `rounded_output == expected_output ? "PASSED" :
"FAILED"`. -/
def verdictWord (rounded_output expected_output : ℤ) : String :=
  if rounded_output == expected_output then "PASSED" else "FAILED"

/-- Source: the `try` block of `main` in `4_linear/main.cpp`, with its handler and the
final `return 0`; `args` are `argv[1] .. argv[argc - 1]`. -/
def mainTry (rt : Runtime) (args : List String) : Outcome :=
  match args with
  | [] => .undefined []
  | arg1 :: _ =>
    match rt.stof arg1 with
    | .error e => catchStd [] e.what
    | .ok input_value =>
      let input_data := [input_value]
      let input_shape : List ℤ := [1, 1]
      let t1 := [Event.env "linear_inference"]
      match rt.createEnv "linear_inference" with
      | .error e => catchStd t1 e.what
      | .ok _ =>
        let t2 := t1 ++ [.session "data/linear/linear.onnx"]
        match rt.createSession "data/linear/linear.onnx" with
        | .error e => catchStd t2 e.what
        | .ok session =>
          let t3 := t2 ++ [.createTensor input_data input_data.length input_shape]
          match rt.createTensor input_data input_data.length input_shape with
          | .error e => catchStd t3 e.what
          | .ok input_tensor =>
            let t4 := t3 ++ [.run ["input"] [input_tensor] ["output"]]
            match session.Run ["input"] [input_tensor] ["output"] with
            | .error e => catchStd t4 e.what
            | .ok [] => .undefined t4
            | .ok (output0 :: _) =>
              match output0.GetTensorMutableData with
              | .error e => catchStd t4 e.what
              | .ok [] => .undefined t4
              | .ok (output0_0 :: _) =>
                let rounded_output := floatToInt rt.oor (round output0_0)
                let expected_output := floatToInt rt.oor (round (mul2 input_value))
                .exit (t4 ++
                  [.out [.str "Input: ", .flt input_value],
                   .out [.str "Output: ", .flt output0_0],
                   .out [.str "Expected: ", .int expected_output],
                   .out [.str "Test ", .str (verdictWord rounded_output expected_output)]])
                  0

/-- Source: `main` of `4_linear/main.cpp`; `prog` is `argv[0]` and `args` are
`argv[1] .. argv[argc - 1]`, so that `argc` is `args.length + 1`. -/
def main (rt : Runtime) (prog : String) (args : List String) : Outcome :=
  if args.length + 1 ≠ 2 then
    .exit [.err [.str "Usage: ", .str prog, .str " <input_number>"]] 1
  else
    mainTry rt args

/-! ## `4_linear/main3.cpp` -/

/-- Source: the loop `for (int i = 1; i < argc; i++) input_data.push_back(std::stof(argv[i]))`:
the arguments are parsed in order and the first exception ends the loop. -/
def parseInputs (stof : String → Except StofError F32) : List String → Except StofError (List F32)
  | [] => .ok []
  | arg :: rest =>
    match stof arg with
    | .error e => .error e
    | .ok v =>
      match parseInputs stof rest with
      | .error e => .error e
      | .ok vs => .ok (v :: vs)

/-- Source: the body of the result loop of `main3.cpp` for index `i`, reading
`input_data[i]` and `output_data[i]`. -/
def sampleLines (oor : F32 → ℤ) (i : ℕ) (input_i output_i : F32) : List Event :=
  let rounded_output := floatToInt oor (round output_i)
  let expected_output := floatToInt oor (round (mul2 input_i))
  [.out [.str "Input ", .size (i + 1), .str ": ", .flt input_i],
   .out [.str "Output ", .size (i + 1), .str ": ", .flt output_i],
   .out [.str "Expected ", .size (i + 1), .str ": ", .int expected_output],
   .out [.str "Test ", .size (i + 1), .str " ",
         .str (verdictWord rounded_output expected_output)],
   .out [.str "-------------------"]]

/-- Source: the loop `for (size_t i = 0; i < num_inputs; i++)` of `main3.cpp`, started
at index `i` with `remaining = num_inputs - i` iterations to go.  The result is the
lines printed and whether the loop ran to its end: it stops, with undefined behaviour,
at the first index that is past the end of a buffer. -/
def resultLoop (oor : F32 → ℤ) (input_data output_data : List F32) :
    ℕ → ℕ → List Event × Bool
  | 0, _ => ([], true)
  | remaining + 1, i =>
    match input_data[i]?, output_data[i]? with
    | some input_i, some output_i =>
      let rest := resultLoop oor input_data output_data remaining (i + 1)
      (sampleLines oor i input_i output_i ++ rest.1, rest.2)
    | _, _ => ([], false)

/-- Source: the `try` block of `main` in `4_linear/main3.cpp`, with its handler and
the final `return 0`; `args` are `argv[1] .. argv[argc - 1]`. -/
def main3Try (rt : Runtime) (args : List String) : Outcome :=
  let num_inputs := args.length + 1 - 1
  match parseInputs rt.stof args with
  | .error e => catchStd [] e.what
  | .ok input_data =>
    let input_shape : List ℤ := [(num_inputs : ℤ), 1]
    let t1 := [Event.env "linear_inference"]
    match rt.createEnv "linear_inference" with
    | .error e => catchStd t1 e.what
    | .ok _ =>
      let t2 := t1 ++ [.session "data/linear/linear.onnx"]
      match rt.createSession "data/linear/linear.onnx" with
      | .error e => catchStd t2 e.what
      | .ok session =>
        let t3 := t2 ++ [.createTensor input_data input_data.length input_shape]
        match rt.createTensor input_data input_data.length input_shape with
        | .error e => catchStd t3 e.what
        | .ok input_tensor =>
          let t4 := t3 ++ [.run ["input"] [input_tensor] ["output"]]
          match session.Run ["input"] [input_tensor] ["output"] with
          | .error e => catchStd t4 e.what
          | .ok [] => .undefined t4
          | .ok (output0 :: _) =>
            match output0.GetTensorMutableData with
            | .error e => catchStd t4 e.what
            | .ok output_data =>
              match resultLoop rt.oor input_data output_data num_inputs 0 with
              | (lines, true) => .exit (t4 ++ lines) 0
              | (lines, false) => .undefined (t4 ++ lines)

/-- Source: `main` of `4_linear/main3.cpp`; `prog` is `argv[0]` and `args` are
`argv[1] .. argv[argc - 1]`, so that `argc` is `args.length + 1`. -/
def main3 (rt : Runtime) (prog : String) (args : List String) : Outcome :=
  if args.length + 1 < 2 ∨ args.length + 1 > 6 then
    .exit [.err [.str "Usage: ", .str prog,
      .str " <input_number1> [input_number2] [input_number3] [input_number4] [input_number5]"]] 1
  else
    main3Try rt args

/-! ## `4_linear/main2.cpp` -/

/-- Source: the two handlers that close the second `try` block of `main2.cpp`:
`catch (const Ort::Exception&)` and then `catch (const std::exception&)`. -/
def catchOrtStd (trace : List Event) : CppException → Outcome
  | .ort w => .exit (trace ++ [.err [.str "ONNX Runtime Error: ", .str w]]) EXIT_FAILURE
  | .std w => .exit (trace ++ [.err [.str "Standard C++ Error: ", .str w]]) EXIT_FAILURE

/-- Source: the loops of `main2.cpp` that collect `input_names_c_str` and
`output_names_c_str`: the `i`-th element pushed is the name of the `i`-th declared
node, for `i` below the declared count. -/
def collectNames (declared : List Node) : List String :=
  (List.range declared.length).filterMap (fun i => (declared[i]?).map Node.name)

/-- Source: the tail of the second `try` block of `main2.cpp`, from the test on
`output_tensors` to `return EXIT_SUCCESS`. -/
def main2Check (rt : Runtime) (trace : List Event) (input_value : F32)
    (output_tensors : List OrtValue) : Outcome :=
  match output_tensors with
  | [] => .exit (trace ++ [.err [.str "Error: No valid output tensors received!"]]) EXIT_FAILURE
  | output0 :: _ =>
    if !output0.IsTensor then
      .exit (trace ++ [.err [.str "Error: No valid output tensors received!"]]) EXIT_FAILURE
    else
      match output0.GetTensorMutableData with
      | .error e => catchOrtStd trace e
      | .ok [] => .undefined trace
      | .ok (output0_0 :: _) =>
        let t1 := trace ++ [.out [.str "Inferred output: ", .flt output0_0]]
        let expected_output := mul2 input_value
        let t2 := t1 ++ [.out [.str "Expected output: ", .flt expected_output]]
        let rounded_output := floatToInt rt.oor (round output0_0)
        let t3 := t2 ++
          [if feq (intToFloat rounded_output) expected_output then
             .out [.str "Inference result matches expected value after rounding. Test PASSED!"]
           else
             .out [.str "Inference result MISMATCHES expected value after rounding. Test FAILED!"]]
        .exit (t3 ++ [.out [.str "--- Program finished successfully ---"]]) EXIT_SUCCESS

/-- Source: `main` of `4_linear/main2.cpp`, from the construction of `Ort::Env` on,
once `input_value` has been parsed. -/
def main2Infer (rt : Runtime) (trace : List Event) (input_value : F32) : Outcome :=
  let t1 := trace ++ [.env "linear_inference_session"]
  match rt.createEnv "linear_inference_session" with
  | .error _ => .terminate t1
  | .ok _ =>
    let model_path := "data/linear/linear.onnx"
    let t2 := t1 ++ [.session model_path]
    match rt.createSession model_path with
    | .error e => catchOrtStd t2 e
    | .ok session =>
      let t3 := t2 ++ [.out [.str "Model loaded successfully from: ", .str model_path]]
      let input_names_c_str := collectNames session.inputs
      let output_names_c_str := collectNames session.outputs
      let input_shape : List ℤ := [1, 1]
      let input_data := [input_value]
      let total_input_elements := input_data.length
      let t4 := t3 ++ [.createTensor input_data total_input_elements input_shape]
      match rt.createTensor input_data total_input_elements input_shape with
      | .error e => catchOrtStd t4 e
      | .ok input_tensor =>
        if !input_tensor.IsTensor then
          .exit (t4 ++ [.err [.str "Error: Created input tensor is not valid!"]]) EXIT_FAILURE
        else
          let t5 := t4 ++
            [.out [.str "Input data prepared: ", .flt input_value],
             .out [.str "Input tensor shape: [", .int 1, .str ", ", .int 1, .str "]"],
             .out [.str "Running inference..."]]
          -- `Run` reads one name from each of the two name arrays
          match input_names_c_str, output_names_c_str with
          | input_name0 :: _, output_name0 :: _ =>
            let t6 := t5 ++ [.run [input_name0] [input_tensor] [output_name0]]
            match session.Run [input_name0] [input_tensor] [output_name0] with
            | .error e => catchOrtStd t6 e
            | .ok output_tensors =>
              main2Check rt (t6 ++ [.out [.str "Inference completed."]]) input_value
                output_tensors
          | _, _ => .undefined t5

/-- Source: `main` of `4_linear/main2.cpp`; `prog` is `argv[0]` and `args` are
`argv[1] .. argv[argc - 1]`. -/
def main2 (rt : Runtime) (prog : String) (args : List String) : Outcome :=
  if args.length + 1 ≠ 2 then
    .exit [.err [.str "Usage: ", .str prog, .str " <input_number>"],
           .err [.str "Example: ", .str prog, .str " 3"]] EXIT_FAILURE
  else
    match args with
    | [] => .undefined []
    | arg1 :: _ =>
      match rt.stof arg1 with
      | .error (.invalid_argument _) =>
        .exit [.err [.str
                 "Error: Invalid input number. Please provide a valid floating-point number."],
               .err [.str "Usage: ", .str prog, .str " <input_number>"]] EXIT_FAILURE
      | .error (.out_of_range _) =>
        .exit [.err [.str "Error: Input number out of range."],
               .err [.str "Usage: ", .str prog, .str " <input_number>"]] EXIT_FAILURE
      | .ok input_value =>
        main2Infer rt
          [.out [.str "--- ONNX Runtime Simple Linear Model Inference Example ---"],
           .out [.str "Input number received from command line: ", .flt input_value]]
          input_value

/-! ## `3_onnx_model_info/main.cpp` -/

/-- Source: `is_shape_static`.  The loop returns `false` at the first dimension equal
to `-1` and `true` when the dimensions are exhausted. -/
def is_shape_static : List ℤ → Bool
  | [] => true
  | dim :: rest => if dim == -1 then false else is_shape_static rest

/-- Source: the body of the loop over `j` that prints a shape: the operand streamed for
one dimension. -/
def dimItem (dim : ℤ) : Item :=
  if dim == -1 then .str "dynamic" else .int dim

/-- Source: the loop `for (size_t j = 0; j < dims.size(); ++j)` that prints a shape:
one entry per dimension, and `", "` after every entry but the last. -/
def shapeItems : List ℤ → List Item
  | [] => []
  | [dim] => [dimItem dim]
  | dim :: rest => dimItem dim :: .str ", " :: shapeItems rest

/-- Source: the statements of `main` that print the shape of one tensor: the line
`    Shape: [...]`. -/
def shapeLine (dims : List ℤ) : Event :=
  .out ([.str "    Shape: ["] ++ shapeItems dims ++ [.str "]"])

/-- Source: the statements of `main` that print the element count of one tensor;
`elementCount` is the result of `GetElementCount()`. -/
def totalElementsLine (dims : List ℤ) (elementCount : ℕ) : Event :=
  if is_shape_static dims then
    .out [.str "    Total Elements (if static): ", .size elementCount]
  else
    .out [.str "    Total Elements: Varies (dynamic shape)"]

/-- Source: `get_tensor_data_type_string`. -/
def get_tensor_data_type_string : ONNXTensorElementDataType → String
  | .UNDEFINED => "undefined"
  | .FLOAT => "float"
  | .UINT8 => "uint8"
  | .INT8 => "int8"
  | .UINT16 => "uint16"
  | .INT16 => "int16"
  | .INT32 => "int32"
  | .INT64 => "int64"
  | .STRING => "string"
  | .BOOL => "bool"
  | .FLOAT16 => "float16"
  | .DOUBLE => "double"
  | .UINT32 => "uint32"
  | .UINT64 => "uint64"
  | .COMPLEX64 => "complex64"
  | .COMPLEX128 => "complex128"
  | .BFLOAT16 => "bfloat16"
  | .other _ => "unknown"

/-- Source: the body of the loops over the input nodes and over the output nodes of
`main` (`kind` is `"  Input "` or `"  Output "`): index, name, data type, shape and
element count of node `i`. -/
def describeNode (kind : String) (i : ℕ) (node : Node) : List Event :=
  [.out [.str kind, .size i, .str ":"],
   .out [.str "    Name: ", .str node.name],
   .out [.str "    Data Type: ", .str (get_tensor_data_type_string node.info.elementType)],
   shapeLine node.info.shape,
   totalElementsLine node.info.shape node.info.elementCount]

/-- Source: the loop `for (size_t i = 0; i < num_nodes; ++i)` of `main`, started at
index `i` on the nodes from `i` on. -/
def describeNodes (kind : String) : ℕ → List Node → List Event
  | _, [] => []
  | i, node :: rest => describeNode kind i node ++ describeNodes kind (i + 1) rest

/-- Source: `main` of `3_onnx_model_info/main.cpp`; `prog` is `argv[0]` and `args` are
`argv[1] .. argv[argc - 1]`. -/
def modelInfoMain (rt : Runtime) (prog : String) (args : List String) : Outcome :=
  if args.length + 1 ≠ 2 then
    .exit [.err [.str "Usage: ", .str prog, .str " <model_path>"],
           .err [.str "Example: ", .str prog, .str " model/linear.onnx"],
           .err [.str "Example: ", .str prog, .str " linear.onnx"]] EXIT_FAILURE
  else
    match args with
    | [] => .undefined []
    | model_path :: _ =>
      let t1 : List Event :=
        [.out [.str "--- ONNX Runtime Model Information Example ---"],
         .out [.str "Attempting to load model from: ", .str model_path],
         .env "model_info_session"]
      match rt.createEnv "model_info_session" with
      | .error _ => .terminate t1
      | .ok _ =>
        let t2 := t1 ++ [.out [.str "ONNX Runtime environment initialized."],
                         .session model_path]
        match rt.createSession model_path with
        | .error (.ort w) =>
          .exit (t2 ++
            [.err [.str "ONNX Runtime Error: ", .str w],
             .err [.str "Please ensure the model path '", .str model_path,
                   .str "' is correct and the file exists."]]) EXIT_FAILURE
        | .error (.std w) =>
          .exit (t2 ++ [.err [.str "Standard C++ Error: ", .str w]]) EXIT_FAILURE
        | .ok session =>
          let num_input_nodes := session.inputs.length
          let num_output_nodes := session.outputs.length
          .exit (t2 ++
            [.out [.str "Model loaded successfully."],
             .out [.str "\n--- Input Tensor Information ---"],
             .out [.str "Number of input nodes: ", .size num_input_nodes]] ++
            describeNodes "  Input " 0 session.inputs ++
            [.out [.str "\n--- Output Tensor Information ---"],
             .out [.str "Number of output nodes: ", .size num_output_nodes]] ++
            describeNodes "  Output " 0 session.outputs ++
            [.out [.str "\n--- Program finished successfully ---"]]) EXIT_SUCCESS


/-! ## Sample library responses, for evaluating the tools on concrete command lines -/

/-- A sample of `std::stof`: its results on a few argument strings; every other string
is taken not to start with a number. -/
def sampleStof : String → Except StofError F32
  | "0.25" => .ok (.fin (1 / 4))
  | "1" => .ok (.fin 1)
  | "2" => .ok (.fin 2)
  | "3" => .ok (.fin 3)
  | "1e39" => .error (.out_of_range "stof")
  | _ => .error (.invalid_argument "stof")

/-- A model with one input `input` and one output `output`, both `float` of shape
`[-1, 1]`, whose output is the element-wise double of its input. -/
def doublingSession : Session where
  inputs := [⟨"input", ⟨.FLOAT, [-1, 1], 0⟩⟩]
  outputs := [⟨"output", ⟨.FLOAT, [-1, 1], 0⟩⟩]
  Run := fun inputNames inputs outputNames =>
    match inputNames, inputs, outputNames with
    | ["input"], [.tensor data shape], ["output"] => .ok [.tensor (data.map mul2) shape]
    | _, _, _ => .error (.ort "invalid input or output")

/-- A model with the same interface whose output is always the one element `y`. -/
def constantSession (y : F32) : Session where
  inputs := [⟨"input", ⟨.FLOAT, [-1, 1], 0⟩⟩]
  outputs := [⟨"output", ⟨.FLOAT, [-1, 1], 0⟩⟩]
  Run := fun _ _ _ => .ok [.tensor [y] [1, 1]]

/-- A model with one input and two outputs, the double and the input itself. -/
def twoOutputSession : Session where
  inputs := [⟨"input", ⟨.FLOAT, [-1, 1], 0⟩⟩]
  outputs := [⟨"output", ⟨.FLOAT, [-1, 1], 0⟩⟩, ⟨"copy", ⟨.FLOAT, [-1, 1], 0⟩⟩]
  Run := fun _ inputs outputNames =>
    match inputs with
    | [.tensor data shape] =>
      .ok (outputNames.map fun name =>
        if name == "output" then .tensor (data.map mul2) shape else .tensor data shape)
    | _ => .error (.ort "invalid input")

/-- Library responses in which every call succeeds: arguments are parsed by
`sampleStof`, an out-of-range conversion to `int` gives `INT_MIN`, the model loaded is
`session` whatever the path, and a tensor is created over the buffer and shape given. -/
def sampleRuntime (session : Session) : Runtime where
  stof := sampleStof
  oor := fun _ => INT_MIN
  createEnv := fun _ => .ok ()
  createSession := fun _ => .ok session
  createTensor := fun data _ shape => .ok (.tensor data shape)

/-! ## Vocabulary of the statements -/

/-- The model executes: with the log identifier `logid`, the environment and the
session on `data/linear/linear.onnx` are created, the tensor over `data` and `shape` is
created as `input_tensor`, and running the session on it under the names given succeeds
with a first output that is a tensor holding `output_data`. -/
def Executes (rt : Runtime) (logid : String) (session : Session)
    (inputName outputName : String) (data : List F32) (shape : List ℤ)
    (input_tensor : OrtValue) (output_data : List F32) : Prop :=
  rt.createEnv logid = .ok () ∧
  rt.createSession "data/linear/linear.onnx" = .ok session ∧
  rt.createTensor data data.length shape = .ok input_tensor ∧
  ∃ shp more,
    session.Run [inputName] [input_tensor] [outputName] = .ok (.tensor output_data shp :: more)

/-- The library calls of `main.cpp` and of `main3.cpp` up to the execution of the
model, in the order they are made. -/
def callTrace (data : List F32) (shape : List ℤ) (input_tensor : OrtValue) : List Event :=
  [.env "linear_inference", .session "data/linear/linear.onnx",
   .createTensor data data.length shape, .run ["input"] [input_tensor] ["output"]]

/-- The line by which `main2.cpp` reports a match. -/
def passedLine2 : Event :=
  .out [.str "Inference result matches expected value after rounding. Test PASSED!"]

/-- The line by which `main2.cpp` reports a mismatch. -/
def failedLine2 : Event :=
  .out [.str "Inference result MISMATCHES expected value after rounding. Test FAILED!"]

/-- The events of a run of `main2.cpp` that executes the model, up to the line that
prints the expected value: `x` is the parsed input, `inputName` and `outputName` the
names passed to `Run`, `input_tensor` the tensor created and `y` the first element of
the first output. -/
def main2Lines (x : F32) (inputName outputName : String) (input_tensor : OrtValue)
    (y : F32) : List Event :=
  [.out [.str "--- ONNX Runtime Simple Linear Model Inference Example ---"],
   .out [.str "Input number received from command line: ", .flt x],
   .env "linear_inference_session",
   .session "data/linear/linear.onnx",
   .out [.str "Model loaded successfully from: ", .str "data/linear/linear.onnx"],
   .createTensor [x] 1 [1, 1],
   .out [.str "Input data prepared: ", .flt x],
   .out [.str "Input tensor shape: [", .int 1, .str ", ", .int 1, .str "]"],
   .out [.str "Running inference..."],
   .run [inputName] [input_tensor] [outputName],
   .out [.str "Inference completed."],
   .out [.str "Inferred output: ", .flt y],
   .out [.str "Expected output: ", .flt (mul2 x)]]

/-- The last line of a run of `main2.cpp` that returns `EXIT_SUCCESS`. -/
def finishedLine2 : Event :=
  .out [.str "--- Program finished successfully ---"]

/-- The block of lines `main3.cpp` prints for sample `i` when the output is the exact
double of the input `x`: the verdict is PASSED. -/
def doubledSampleLines (oor : F32 → ℤ) (i : ℕ) (x : F32) : List Event :=
  [.out [.str "Input ", .size (i + 1), .str ": ", .flt x],
   .out [.str "Output ", .size (i + 1), .str ": ", .flt (mul2 x)],
   .out [.str "Expected ", .size (i + 1), .str ": ", .int (floatToInt oor (round (mul2 x)))],
   .out [.str "Test ", .size (i + 1), .str " ", .str "PASSED"],
   .out [.str "-------------------"]]

/-- Recognises the lines that carry a validation verdict: `Test PASSED` / `Test FAILED`
of `main.cpp`, `Test <i> PASSED` / `Test <i> FAILED` of `main3.cpp`, and the two
verdict lines of `main2.cpp`. -/
def Event.isVerdict (e : Event) : Bool :=
  match e with
  | .out [.str "Test ", .str _] => true
  | .out [.str "Test ", .size _, .str " ", .str _] => true
  | _ => decide (e = passedLine2) || decide (e = failedLine2)

/-- Recognises the lines that carry the verdict FAILED. -/
def Event.isFailedVerdict (e : Event) : Bool :=
  match e with
  | .out [.str "Test ", .str "FAILED"] => true
  | .out [.str "Test ", .size _, .str " ", .str "FAILED"] => true
  | _ => decide (e = failedLine2)

/-- A run that prints a verdict and returns, returns 0. -/
def Outcome.ZeroWhenVerdict (o : Outcome) : Prop :=
  ∀ trace code, o = .exit trace code → (∃ e ∈ trace, e.isVerdict = true) → code = 0

/-- Recognises the calls of `Run`. -/
def Event.isRun : Event → Bool
  | .run _ _ _ => true
  | _ => false

/-- The usage line of `main3.cpp`. -/
def usageLine3 (prog : String) : Event :=
  .err [.str "Usage: ", .str prog,
    .str " <input_number1> [input_number2] [input_number3] [input_number4] [input_number5]"]

/-- The batch a caller submits for one input of a model, as the specification's data
model describes it: the name of the input, the values, and the shape. -/
structure RawInputBatch where
  name : String
  values : List F32
  shape : List ℤ

/-- The invariant the specification's data model gives for a `RawInputBatch` against
the shape of a tensor descriptor, in which `-1` marks a dynamic dimension: the shape
has positive dimensions and as many as the descriptor, its product is the number of
values, and every static dimension of the descriptor equals that of the batch. -/
def RawInputBatch.Invariant (descriptorShape : List ℤ) (batch : RawInputBatch) : Prop :=
  (∀ d ∈ batch.shape, 0 < d) ∧
  batch.shape.prod = batch.values.length ∧
  batch.shape.length = descriptorShape.length ∧
  List.Forall₂ (fun dd bd => dd ≠ -1 → bd = dd) descriptorShape batch.shape

/-- Recognises the calls into ONNX Runtime among the events. -/
def Event.isCall : Event → Bool
  | .env _ => true
  | .session _ => true
  | .createTensor _ _ _ => true
  | .run _ _ _ => true
  | _ => false

/-- The verdict word (`PASSED` or `FAILED`) of a verdict line of `main.cpp` or of
`main3.cpp`. -/
def Event.verdictWord? : Event → Option String
  | .out [.str "Test ", .str w] => some w
  | .out [.str "Test ", .size _, .str " ", .str w] => some w
  | _ => none

/-- The exit code of a run that returns from `main`. -/
def Outcome.code? : Outcome → Option ℤ
  | .exit _ code => some code
  | _ => none

/-- Every call of `Run` in the run binds one input under the name `inputName` and
requests the one output `outputName`. -/
def Outcome.RunsUnder (inputName outputName : String) (o : Outcome) : Prop :=
  ∀ e ∈ o.trace, e.isRun = true → ∃ t, e = .run [inputName] [t] [outputName]

/-- A model whose input is declared under the name `x`, and which binds its input by
name: `Run` rejects any input name but `x`. -/
def renamedSession : Session where
  inputs := [⟨"x", ⟨.FLOAT, [-1, 1], 0⟩⟩]
  outputs := [⟨"output", ⟨.FLOAT, [-1, 1], 0⟩⟩]
  Run := fun inputNames inputs outputNames =>
    match inputNames, inputs, outputNames with
    | ["x"], [.tensor data shape], ["output"] => .ok [.tensor (data.map mul2) shape]
    | _, _, _ => .error (.ort "Invalid input name")

/-- A model whose input `input` is declared with the shape `[-1, 1, 1]`, of rank 3:
`Run` rejects a tensor of another rank. -/
def rank3Session : Session where
  inputs := [⟨"input", ⟨.FLOAT, [-1, 1, 1], 0⟩⟩]
  outputs := [⟨"output", ⟨.FLOAT, [-1, 1, 1], 0⟩⟩]
  Run := fun inputNames inputs outputNames =>
    match inputNames, inputs, outputNames with
    | ["input"], [.tensor data [n, 1, 1]], ["output"] => .ok [.tensor (data.map mul2) [n, 1, 1]]
    | _, _, _ => .error (.ort "Invalid rank for input")

/-- A model that declares no input and no output. -/
def emptySession : Session where
  inputs := []
  outputs := []
  Run := fun _ _ _ => .ok []

/-- A model with two inputs, `ids` of 64-bit integers with the static shape `[2, 3]`
and `mask` of booleans with a dynamic shape, and one output `logits` of doubles. -/
def typedSession : Session where
  inputs := [⟨"ids", ⟨.INT64, [2, 3], 6⟩⟩, ⟨"mask", ⟨.BOOL, [-1], 0⟩⟩]
  outputs := [⟨"logits", ⟨.DOUBLE, [2], 2⟩⟩]
  Run := fun _ _ _ => .ok []

/-! ## Rounding and conversions -/

theorem cround_nonneg_bounds (q : ℚ) (h : 0 ≤ q) :
    (cround q : ℚ) ≤ q + 1 / 2 ∧ q - 1 / 2 < cround q := by
  unfold cround
  rw [if_pos h]
  have h1 := Int.floor_le (q + 1 / 2)
  have h2 := Int.lt_floor_add_one (q + 1 / 2)
  constructor <;> linarith

theorem cround_neg_bounds (q : ℚ) (h : ¬ 0 ≤ q) :
    q - 1 / 2 ≤ cround q ∧ (cround q : ℚ) < q + 1 / 2 := by
  unfold cround
  rw [if_neg h]
  have h1 := Int.floor_le (-q + 1 / 2)
  have h2 := Int.lt_floor_add_one (-q + 1 / 2)
  push_cast
  constructor <;> linarith

/-- The rounded value is within one half of the argument. -/
theorem cround_abs_sub_le (q : ℚ) : |(cround q : ℚ) - q| ≤ 1 / 2 := by
  rw [abs_le]
  by_cases h : 0 ≤ q
  · obtain ⟨h1, h2⟩ := cround_nonneg_bounds q h
    constructor <;> linarith
  · obtain ⟨h1, h2⟩ := cround_neg_bounds q h
    constructor <;> linarith

/-- A halfway case is rounded away from zero: `n + 1/2` to `n + 1` and `-(n + 1/2)` to
`-(n + 1)`, for every natural number `n`. -/
theorem cround_half (n : ℕ) :
    cround ((n : ℚ) + 1 / 2) = n + 1 ∧ cround (-((n : ℚ) + 1 / 2)) = -((n : ℤ) + 1) := by
  have hn : (0 : ℚ) ≤ n := Nat.cast_nonneg n
  constructor
  · have h0 : (0 : ℚ) ≤ (n : ℚ) + 1 / 2 := by linarith
    obtain ⟨h1, h2⟩ := cround_nonneg_bounds _ h0
    have h3 : cround ((n : ℚ) + 1 / 2) ≤ (n : ℤ) + 1 := by
      have : (cround ((n : ℚ) + 1 / 2) : ℚ) ≤ ((n : ℤ) + 1 : ℤ) := by push_cast; linarith
      exact_mod_cast this
    have h4 : (n : ℤ) < cround ((n : ℚ) + 1 / 2) := by
      have : (((n : ℤ) : ℤ) : ℚ) < cround ((n : ℚ) + 1 / 2) := by push_cast; linarith
      exact_mod_cast this
    omega
  · have h0 : ¬ (0 : ℚ) ≤ -((n : ℚ) + 1 / 2) := by
      intro h; linarith
    obtain ⟨h1, h2⟩ := cround_neg_bounds _ h0
    have h3 : -((n : ℤ) + 1) ≤ cround (-((n : ℚ) + 1 / 2)) := by
      have : ((-((n : ℤ) + 1) : ℤ) : ℚ) ≤ cround (-((n : ℚ) + 1 / 2)) := by
        push_cast; linarith
      exact_mod_cast this
    have h4 : cround (-((n : ℚ) + 1 / 2)) < -(n : ℤ) := by
      have : (cround (-((n : ℚ) + 1 / 2)) : ℚ) < ((-(n : ℤ) : ℤ) : ℚ) := by
        push_cast; linarith
      exact_mod_cast this
    omega

theorem ctrunc_intCast (z : ℤ) : ctrunc (z : ℚ) = z := by
  simp [ctrunc]

/-- Rounding a finite `float` and converting to `int` gives the rounded value when it
is a value of `int`. -/
theorem floatToInt_round_fin (oor : F32 → ℤ) (q : ℚ)
    (h1 : INT_MIN ≤ cround q) (h2 : cround q ≤ INT_MAX) :
    floatToInt oor (round (.fin q)) = cround q := by
  simp [round, floatToInt, ctrunc_intCast, h1, h2]

theorem abs_le_FLT_MAX_of_cround (q : ℚ)
    (h1 : INT_MIN ≤ cround q) (h2 : cround q ≤ INT_MAX) : |q| ≤ FLT_MAX := by
  have h := cround_abs_sub_le q
  rw [abs_le] at h ⊢
  have h1' : (INT_MIN : ℚ) ≤ cround q := by exact_mod_cast h1
  have h2' : (cround q : ℚ) ≤ INT_MAX := by exact_mod_cast h2
  simp only [INT_MIN, INT_MAX, FLT_MAX] at *
  push_cast at h1' h2'
  constructor <;> norm_num <;> linarith

/-- Doubling does not overflow when the rounded double is a value of `int`. -/
theorem mul2_fin_of_fits (q : ℚ)
    (h1 : INT_MIN ≤ cround (2 * q)) (h2 : cround (2 * q) ≤ INT_MAX) :
    mul2 (.fin q) = .fin (2 * q) := by
  simp [mul2, abs_le_FLT_MAX_of_cround (2 * q) h1 h2]

/-! ## The runs of the tools -/

theorem parseInputs_forall₂ (stof : String → Except StofError F32) :
    ∀ (args : List String) (xs : List F32), parseInputs stof args = .ok xs →
      List.Forall₂ (fun a x => stof a = .ok x) args xs
  | [], xs, h => by
    simp [parseInputs] at h
    subst h
    exact List.Forall₂.nil
  | a :: rest, xs, h => by
    unfold parseInputs at h
    split at h
    · exact absurd h (by simp)
    · rename_i v hv
      split at h
      · exact absurd h (by simp)
      · rename_i vs hvs
        have hx : v :: vs = xs := by simpa using h
        subst hx
        exact List.Forall₂.cons hv (parseInputs_forall₂ stof rest vs hvs)

theorem parseInputs_length (stof : String → Except StofError F32)
    (args : List String) (xs : List F32) (h : parseInputs stof args = .ok xs) :
    xs.length = args.length :=
  (parseInputs_forall₂ stof args xs h).length_eq.symm

theorem resultLoop_eq (oor : F32 → ℤ) (X Y : List F32) :
    ∀ (remaining i : ℕ), i + remaining ≤ X.length → i + remaining ≤ Y.length →
      resultLoop oor X Y remaining i =
        ((((X.drop i).zip (Y.drop i)).take remaining).enumFrom i |>.flatMap
          (fun p => sampleLines oor p.1 p.2.1 p.2.2), true)
  | 0, i, _, _ => by simp [resultLoop]
  | remaining + 1, i, hX, hY => by
    have hi : i < X.length := by omega
    have hj : i < Y.length := by omega
    have ih := resultLoop_eq oor X Y remaining (i + 1) (by omega) (by omega)
    have hz : (X.drop i).zip (Y.drop i) =
        (X[i], Y[i]) :: (X.drop (i + 1)).zip (Y.drop (i + 1)) := by
      rw [List.drop_eq_getElem_cons hi, List.drop_eq_getElem_cons hj, List.zip_cons_cons]
    rw [resultLoop, List.getElem?_eq_getElem hi, List.getElem?_eq_getElem hj]
    simp only [ih]
    rw [hz, List.take_succ_cons, List.enumFrom_cons, List.flatMap_cons]

theorem resultLoop_all (oor : F32 → ℤ) (X Y : List F32) (h : X.length ≤ Y.length) :
    resultLoop oor X Y X.length 0 =
      ((X.zip Y).enum.flatMap (fun p => sampleLines oor p.1 p.2.1 p.2.2), true) := by
  rw [resultLoop_eq oor X Y X.length 0 (by omega) (by omega)]
  have : ((X.drop 0).zip (Y.drop 0)).take X.length = X.zip Y := by
    rw [List.drop_zero, List.drop_zero]
    apply List.take_of_length_le
    simp [List.length_zip]
  rw [this]
  rfl

theorem mainTry_of_executes (rt : Runtime) (session : Session) (arg : String)
    (rest : List String) (x y : F32) (ys : List F32) (t : OrtValue)
    (hstof : rt.stof arg = .ok x)
    (hexec : Executes rt "linear_inference" session "input" "output" [x] [1, 1] t (y :: ys)) :
    mainTry rt (arg :: rest) = .exit (callTrace [x] [1, 1] t ++
      [.out [.str "Input: ", .flt x],
       .out [.str "Output: ", .flt y],
       .out [.str "Expected: ", .int (floatToInt rt.oor (round (mul2 x)))],
       .out [.str "Test ", .str (verdictWord (floatToInt rt.oor (round y))
         (floatToInt rt.oor (round (mul2 x))))]]) 0 := by
  obtain ⟨henv, hsess, htensor, shp, more, hrun⟩ := hexec
  simp only [List.length_singleton] at htensor
  simp [mainTry, hstof, henv, hsess, htensor, hrun, OrtValue.GetTensorMutableData, callTrace]

theorem main3Try_of_executes (rt : Runtime) (session : Session) (args : List String)
    (xs ys : List F32) (t : OrtValue)
    (hparse : parseInputs rt.stof args = .ok xs)
    (hexec : Executes rt "linear_inference" session "input" "output" xs
      [(args.length : ℤ), 1] t ys)
    (hlen : xs.length ≤ ys.length) :
    main3Try rt args = .exit (callTrace xs [(args.length : ℤ), 1] t ++
      (xs.zip ys).enum.flatMap (fun p => sampleLines rt.oor p.1 p.2.1 p.2.2)) 0 := by
  obtain ⟨henv, hsess, htensor, shp, more, hrun⟩ := hexec
  have hn := parseInputs_length rt.stof args xs hparse
  have hloop := resultLoop_all rt.oor xs ys hlen
  rw [hn] at hloop
  simp [main3Try, hparse, henv, hsess, htensor, hrun, OrtValue.GetTensorMutableData,
    callTrace, hloop]

/-! ## Validation verdicts -/

theorem verdictWord_eq (a b : ℤ) :
    verdictWord a b = if a = b then "PASSED" else "FAILED" := by
  simp [verdictWord]

/-- Claim C1.  In `main.cpp`, and for each sample in `main3.cpp`, when the input `x` and
the model output `y` are finite and the rounded values of `y` and of `2 * x` are values
of `int`, the verdict printed is PASSED if the two rounded values are equal and FAILED
otherwise, rounding being to the nearest integer with halfway cases away from zero.
The first part is the whole run of `main.cpp`; the second is the block of lines
`main3.cpp` prints for sample `i`; the third says that a run of `main3.cpp` prints one
such block per sample, in order. -/
theorem C1_verdict_passed_iff_rounded_equal (rt : Runtime) (prog : String) :
    (∀ (session : Session) (arg : String) (qx qy : ℚ) (ys : List F32) (t : OrtValue),
      rt.stof arg = .ok (.fin qx) →
      Executes rt "linear_inference" session "input" "output" [.fin qx] [1, 1] t
        (.fin qy :: ys) →
      INT_MIN ≤ cround qy → cround qy ≤ INT_MAX →
      INT_MIN ≤ cround (2 * qx) → cround (2 * qx) ≤ INT_MAX →
      main rt prog [arg] = .exit (callTrace [.fin qx] [1, 1] t ++
        [.out [.str "Input: ", .flt (.fin qx)],
         .out [.str "Output: ", .flt (.fin qy)],
         .out [.str "Expected: ", .int (cround (2 * qx))],
         .out [.str "Test ",
           .str (if cround qy = cround (2 * qx) then "PASSED" else "FAILED")]]) 0) ∧
    (∀ (i : ℕ) (qx qy : ℚ),
      INT_MIN ≤ cround qy → cround qy ≤ INT_MAX →
      INT_MIN ≤ cround (2 * qx) → cround (2 * qx) ≤ INT_MAX →
      sampleLines rt.oor i (.fin qx) (.fin qy) =
        [.out [.str "Input ", .size (i + 1), .str ": ", .flt (.fin qx)],
         .out [.str "Output ", .size (i + 1), .str ": ", .flt (.fin qy)],
         .out [.str "Expected ", .size (i + 1), .str ": ", .int (cround (2 * qx))],
         .out [.str "Test ", .size (i + 1), .str " ",
           .str (if cround qy = cround (2 * qx) then "PASSED" else "FAILED")],
         .out [.str "-------------------"]]) ∧
    (∀ (session : Session) (args : List String) (xs ys : List F32) (t : OrtValue),
      1 ≤ args.length → args.length ≤ 5 →
      parseInputs rt.stof args = .ok xs →
      Executes rt "linear_inference" session "input" "output" xs [(args.length : ℤ), 1] t ys →
      xs.length ≤ ys.length →
      main3 rt prog args = .exit (callTrace xs [(args.length : ℤ), 1] t ++
        (xs.zip ys).enum.flatMap (fun p => sampleLines rt.oor p.1 p.2.1 p.2.2)) 0) := by
  refine ⟨?_, ?_, ?_⟩
  · intro session arg qx qy ys t hstof hexec h1 h2 h3 h4
    have hm : main rt prog [arg] = mainTry rt [arg] := by simp [main]
    rw [hm, mainTry_of_executes rt session arg [] _ _ ys t hstof hexec,
      mul2_fin_of_fits qx h3 h4, floatToInt_round_fin rt.oor qy h1 h2,
      floatToInt_round_fin rt.oor (2 * qx) h3 h4, verdictWord_eq]
  · intro i qx qy h1 h2 h3 h4
    simp only [sampleLines]
    rw [mul2_fin_of_fits qx h3 h4, floatToInt_round_fin rt.oor qy h1 h2,
      floatToInt_round_fin rt.oor (2 * qx) h3 h4, verdictWord_eq]
  · intro session args xs ys t h1 h5 hparse hexec hlen
    have hm : main3 rt prog args = main3Try rt args := by
      have : ¬ (args.length + 1 < 2 ∨ args.length + 1 > 6) := by omega
      simp [main3, this]
    rw [hm, main3Try_of_executes rt session args xs ys t hparse hexec hlen]

/-- Witness of C1: `main.cpp` on the argument `3` with the doubling model (output 6,
verdict PASSED); the lines of `main3.cpp` for a sample with input 1 and output 5
(verdict FAILED); `main3.cpp` on the arguments `1 2 3` with the doubling model. -/
theorem C1_verdict_passed_iff_rounded_equal_witness :
    main (sampleRuntime doublingSession) "linear" ["3"] =
      .exit (callTrace [.fin 3] [1, 1] (.tensor [.fin 3] [1, 1]) ++
        [.out [.str "Input: ", .flt (.fin 3)],
         .out [.str "Output: ", .flt (.fin 6)],
         .out [.str "Expected: ", .int 6],
         .out [.str "Test ", .str "PASSED"]]) 0 ∧
    sampleLines (sampleRuntime doublingSession).oor 0 (.fin 1) (.fin 5) =
        [.out [.str "Input ", .size 1, .str ": ", .flt (.fin 1)],
         .out [.str "Output ", .size 1, .str ": ", .flt (.fin 5)],
         .out [.str "Expected ", .size 1, .str ": ", .int 2],
         .out [.str "Test ", .size 1, .str " ", .str "FAILED"],
         .out [.str "-------------------"]] ∧
    main3 (sampleRuntime doublingSession) "linear" ["1", "2", "3"] =
      .exit (callTrace [.fin 1, .fin 2, .fin 3] [3, 1] (.tensor [.fin 1, .fin 2, .fin 3] [3, 1]) ++
        ([(F32.fin 1, F32.fin 2), (.fin 2, .fin 4), (.fin 3, .fin 6)].enum.flatMap
          (fun p => sampleLines (sampleRuntime doublingSession).oor p.1 p.2.1 p.2.2))) 0 :=
  have h := C1_verdict_passed_iff_rounded_equal (sampleRuntime doublingSession) "linear"
  ⟨(h.1 doublingSession "3" 3 6 [] (.tensor [.fin 3] [1, 1]) rfl
      ⟨rfl, rfl, rfl, [1, 1], [], by decide!⟩
      (by decide!) (by decide!) (by decide!) (by decide!)).trans (by decide!),
   (h.2.1 0 1 5 (by decide!) (by decide!) (by decide!) (by decide!)).trans (by decide!),
   h.2.2 doublingSession ["1", "2", "3"] [.fin 1, .fin 2, .fin 3]
      [.fin 2, .fin 4, .fin 6] (.tensor [.fin 1, .fin 2, .fin 3] [3, 1])
      (by decide) (by decide) (by decide!) ⟨rfl, rfl, rfl, [3, 1], [], by decide!⟩ (by decide)⟩

theorem collectNames_eq : ∀ (declared : List Node), collectNames declared = declared.map Node.name
  | [] => by simp [collectNames]
  | node :: rest => by
    have ih := collectNames_eq rest
    simp only [collectNames] at ih ⊢
    rw [List.length_cons, List.range_succ_eq_map, List.filterMap_cons]
    simp only [List.getElem?_cons_zero, Option.map_some', List.filterMap_map, List.map_cons]
    congr 1
    rw [← ih]
    apply List.filterMap_congr
    intro i _
    simp

theorem rne24_of_natAbs_lt (n : ℤ) (h : n.natAbs < 2 ^ 24) : rne24 n = n := by
  have h0 : n.natAbs < 16777216 := by simpa using h
  have hk : excessBits 32 n.natAbs = 0 := by
    simp [excessBits, h0]
  simp only [rne24, hk]
  simp [Nat.mod_one, Int.sign_mul_abs]

/-- An integer of magnitude at most `2^24` is a `float`: the conversion keeps it. -/
theorem rne24_of_abs_le (n : ℤ) (h : |n| ≤ 2 ^ 24) : rne24 n = n := by
  rcases abs_le.mp h with ⟨h1, h2⟩
  by_cases hlt : n.natAbs < 2 ^ 24
  · exact rne24_of_natAbs_lt n hlt
  · have : n = 2 ^ 24 ∨ n = -(2 ^ 24) := by omega
    rcases this with rfl | rfl <;> decide

theorem main2_of_executes (rt : Runtime) (prog : String) (session : Session) (arg : String)
    (x y : F32) (ys : List F32) (t : OrtValue) (i0 o0 : Node) (is os : List Node)
    (hstof : rt.stof arg = .ok x)
    (hin : session.inputs = i0 :: is) (hout : session.outputs = o0 :: os)
    (hexec : Executes rt "linear_inference_session" session i0.name o0.name [x] [1, 1] t
      (y :: ys))
    (ht : t.IsTensor = true) :
    main2 rt prog [arg] = .exit (main2Lines x i0.name o0.name t y ++
      [if feq (intToFloat (floatToInt rt.oor (round y))) (mul2 x) then passedLine2
       else failedLine2, finishedLine2]) EXIT_SUCCESS := by
  obtain ⟨henv, hsess, htensor, shp, more, hrun⟩ := hexec
  simp only [List.length_singleton] at htensor
  cases t with
  | nonTensor w => simp [OrtValue.IsTensor] at ht
  | tensor tdata tshape =>
  simp only [main2, main2Infer, main2Check, hstof, henv, hsess, htensor, hrun, ht,
    collectNames_eq, hin, hout, List.map_cons, OrtValue.IsTensor,
    OrtValue.GetTensorMutableData, main2Lines, passedLine2, failedLine2, finishedLine2,
    List.length_singleton]
  simp

/-- Claim C2, as amended.  `main2.cpp` rounds only the output: when the input `x` is
finite with a finite double, the output `y` is finite and its rounded value is a value
of `int`, the tool reports `Test PASSED` exactly when the rounded output, converted to
`float`, equals the unrounded expected value `2 * x`, and `Test FAILED` otherwise; the
conversion to `float` keeps every rounded output of magnitude at most `2^24`. -/
theorem C2_main2_passed_iff_rounded_output_eq_double (rt : Runtime) (prog : String)
    (session : Session) (arg : String) (qx qy : ℚ) (ys : List F32) (t : OrtValue)
    (i0 o0 : Node) (is os : List Node)
    (hstof : rt.stof arg = .ok (.fin qx))
    (hin : session.inputs = i0 :: is) (hout : session.outputs = o0 :: os)
    (hexec : Executes rt "linear_inference_session" session i0.name o0.name [.fin qx] [1, 1] t
      (.fin qy :: ys))
    (ht : t.IsTensor = true)
    (hx : |2 * qx| ≤ FLT_MAX)
    (h1 : INT_MIN ≤ cround qy) (h2 : cround qy ≤ INT_MAX) :
    main2 rt prog [arg] = .exit (main2Lines (.fin qx) i0.name o0.name t (.fin qy) ++
      [if ((rne24 (cround qy) : ℤ) : ℚ) = 2 * qx then passedLine2 else failedLine2,
       finishedLine2]) EXIT_SUCCESS ∧
    (|cround qy| ≤ 2 ^ 24 → rne24 (cround qy) = cround qy) := by
  refine ⟨?_, rne24_of_abs_le _⟩
  rw [main2_of_executes rt prog session arg _ _ ys t i0 o0 is os hstof hin hout hexec ht,
    floatToInt_round_fin rt.oor qy h1 h2]
  simp [mul2, hx, intToFloat, feq]

/-- Witness of C2 as amended: `main2.cpp` on the argument `3` with the doubling model:
the rounded output 6 equals `2 * 3`. -/
theorem C2_main2_passed_iff_rounded_output_eq_double_witness :
    main2 (sampleRuntime doublingSession) "linear" ["3"] =
      .exit (main2Lines (.fin 3) "input" "output" (.tensor [.fin 3] [1, 1]) (.fin 6) ++
        [if ((rne24 (cround 6) : ℤ) : ℚ) = 2 * 3 then passedLine2 else failedLine2,
         finishedLine2]) EXIT_SUCCESS ∧
    (|cround 6| ≤ 2 ^ 24 → rne24 (cround 6) = cround 6) :=
  C2_main2_passed_iff_rounded_output_eq_double (sampleRuntime doublingSession) "linear"
    doublingSession "3" 3 6 [] (.tensor [.fin 3] [1, 1])
    ⟨"input", ⟨.FLOAT, [-1, 1], 0⟩⟩ ⟨"output", ⟨.FLOAT, [-1, 1], 0⟩⟩ [] [] rfl rfl rfl
    ⟨rfl, rfl, rfl, [1, 1], [], by decide!⟩ rfl (by decide!) (by decide!) (by decide!)

/-- Claim C2 fails as stated: on the argument `0.25` the doubling model gives 0.5; the
rounded output is 1 and the rounded expected value is 1 as well, yet `main2.cpp`
compares 1 with the unrounded 0.5 and reports `Test FAILED`. -/
theorem C2_counterexample :
    main2 (sampleRuntime doublingSession) "linear" ["0.25"] =
      .exit
        [.out [.str "--- ONNX Runtime Simple Linear Model Inference Example ---"],
         .out [.str "Input number received from command line: ", .flt (.fin (1 / 4))],
         .env "linear_inference_session",
         .session "data/linear/linear.onnx",
         .out [.str "Model loaded successfully from: ", .str "data/linear/linear.onnx"],
         .createTensor [.fin (1 / 4)] 1 [1, 1],
         .out [.str "Input data prepared: ", .flt (.fin (1 / 4))],
         .out [.str "Input tensor shape: [", .int 1, .str ", ", .int 1, .str "]"],
         .out [.str "Running inference..."],
         .run ["input"] [.tensor [.fin (1 / 4)] [1, 1]] ["output"],
         .out [.str "Inference completed."],
         .out [.str "Inferred output: ", .flt (.fin (1 / 2))],
         .out [.str "Expected output: ", .flt (.fin (1 / 2))],
         .out [.str "Inference result MISMATCHES expected value after rounding. Test FAILED!"],
         .out [.str "--- Program finished successfully ---"]] 0 ∧
    cround (1 / 2) = cround (2 * (1 / 4)) := by
  constructor <;> decide!

theorem sampleLines_doubled (oor : F32 → ℤ) (i : ℕ) (x : F32) :
    sampleLines oor i x (mul2 x) = doubledSampleLines oor i x := by
  simp [sampleLines, doubledSampleLines, verdictWord]

theorem flatMap_sampleLines_doubled (oor : F32 → ℤ) :
    ∀ (xs : List F32) (i : ℕ),
      ((xs.zip (xs.map mul2)).enumFrom i).flatMap (fun p => sampleLines oor p.1 p.2.1 p.2.2) =
        (xs.enumFrom i).flatMap (fun p => doubledSampleLines oor p.1 p.2)
  | [], _ => by simp
  | x :: xs, i => by
    simp only [List.map_cons, List.zip_cons_cons, List.enumFrom_cons, List.flatMap_cons,
      sampleLines_doubled, flatMap_sampleLines_doubled oor xs (i + 1)]

theorem filter_isVerdict_doubled (oor : F32 → ℤ) :
    ∀ (xs : List F32) (i : ℕ),
      ((xs.enumFrom i).flatMap (fun p => doubledSampleLines oor p.1 p.2)).filter
          Event.isVerdict =
        (List.range' i xs.length).map
          (fun k => Event.out [.str "Test ", .size (k + 1), .str " ", .str "PASSED"])
  | [], _ => by simp
  | x :: xs, i => by
    rw [List.enumFrom_cons, List.flatMap_cons, List.filter_append,
      filter_isVerdict_doubled oor xs (i + 1), List.length_cons, List.range'_succ,
      List.map_cons]
    congr 1

/-- Claim C3.  For every accepted batch of `n` arguments (`1 ≤ n ≤ 5`) that parse to
the inputs `xs`, when the model's output is the element-wise double of its input,
`main3.cpp` returns after printing, for each sample in submission order, the block of
that sample (its input, its output, and the verdict PASSED); the verdict lines of the
run are exactly `Test 1 PASSED`, ..., `Test n PASSED`, and there are `n` of them. -/
theorem C3_doubling_batch_all_passed (rt : Runtime) (prog : String) (session : Session)
    (args : List String) (xs : List F32) (t : OrtValue)
    (h1 : 1 ≤ args.length) (h5 : args.length ≤ 5)
    (hparse : parseInputs rt.stof args = .ok xs)
    (hexec : Executes rt "linear_inference" session "input" "output" xs
      [(args.length : ℤ), 1] t (xs.map mul2)) :
    main3 rt prog args = .exit (callTrace xs [(args.length : ℤ), 1] t ++
      xs.enum.flatMap (fun p => doubledSampleLines rt.oor p.1 p.2)) 0 ∧
    (main3 rt prog args).trace.filter Event.isVerdict =
      (List.range' 0 args.length).map
        (fun k => Event.out [.str "Test ", .size (k + 1), .str " ", .str "PASSED"]) ∧
    ((main3 rt prog args).trace.filter Event.isVerdict).length = args.length := by
  have hn := parseInputs_length rt.stof args xs hparse
  have hm : main3 rt prog args = main3Try rt args := by
    have : ¬ (args.length + 1 < 2 ∨ args.length + 1 > 6) := by omega
    simp [main3, this]
  have hrun : main3 rt prog args = .exit (callTrace xs [(args.length : ℤ), 1] t ++
      xs.enum.flatMap (fun p => doubledSampleLines rt.oor p.1 p.2)) 0 := by
    rw [hm, main3Try_of_executes rt session args xs (xs.map mul2) t hparse hexec (by simp)]
    simp only [List.enum]
    rw [flatMap_sampleLines_doubled]
  have hfilter : (main3 rt prog args).trace.filter Event.isVerdict =
      (List.range' 0 args.length).map
        (fun k => Event.out [.str "Test ", .size (k + 1), .str " ", .str "PASSED"]) := by
    rw [hrun, Outcome.trace, List.filter_append]
    have hc : (callTrace xs [(args.length : ℤ), 1] t).filter Event.isVerdict = [] := by
      simp [callTrace, Event.isVerdict, passedLine2, failedLine2]
    rw [hc, List.nil_append, List.enum, filter_isVerdict_doubled, hn]
  refine ⟨hrun, hfilter, ?_⟩
  rw [hfilter]
  simp

/-- Witness of C3: the arguments `1 2 3` with the doubling model give the outputs 2, 4
and 6 and three verdicts, all PASSED. -/
theorem C3_doubling_batch_all_passed_witness :
    main3 (sampleRuntime doublingSession) "linear" ["1", "2", "3"] =
      .exit (callTrace [.fin 1, .fin 2, .fin 3] [((["1", "2", "3"] : List String).length : ℤ), 1]
          (.tensor [.fin 1, .fin 2, .fin 3] [3, 1]) ++
        [F32.fin 1, .fin 2, .fin 3].enum.flatMap
          (fun p => doubledSampleLines (sampleRuntime doublingSession).oor p.1 p.2)) 0 ∧
    (main3 (sampleRuntime doublingSession) "linear" ["1", "2", "3"]).trace.filter
        Event.isVerdict =
      (List.range' 0 (["1", "2", "3"] : List String).length).map
        (fun k => Event.out [.str "Test ", .size (k + 1), .str " ", .str "PASSED"]) ∧
    ((main3 (sampleRuntime doublingSession) "linear" ["1", "2", "3"]).trace.filter
        Event.isVerdict).length = (["1", "2", "3"] : List String).length :=
  C3_doubling_batch_all_passed (sampleRuntime doublingSession) "linear" doublingSession
    ["1", "2", "3"] [.fin 1, .fin 2, .fin 3] (.tensor [.fin 1, .fin 2, .fin 3] [3, 1])
    (by decide) (by decide) (by decide!) ⟨rfl, rfl, rfl, [3, 1], [], by decide!⟩

/-! ## Exit codes -/

theorem zeroWhenVerdict_undefined (t : List Event) : (Outcome.undefined t).ZeroWhenVerdict := by
  intro trace code h
  exact absurd h (by simp)

theorem zeroWhenVerdict_terminate (t : List Event) : (Outcome.terminate t).ZeroWhenVerdict := by
  intro trace code h
  exact absurd h (by simp)

theorem zeroWhenVerdict_zero (t : List Event) : (Outcome.exit t 0).ZeroWhenVerdict := by
  intro trace code h _
  simp only [Outcome.exit.injEq] at h
  exact h.2.symm

theorem zeroWhenVerdict_of_no_verdict (t : List Event) (c : ℤ)
    (h : ∀ e ∈ t, e.isVerdict = false) : (Outcome.exit t c).ZeroWhenVerdict := by
  intro trace code heq hv
  simp only [Outcome.exit.injEq] at heq
  obtain ⟨rfl, rfl⟩ := heq
  obtain ⟨e, he, hev⟩ := hv
  rw [h e he] at hev
  exact absurd hev (by simp)

theorem main_zeroWhenVerdict (rt : Runtime) (prog : String) (args : List String) :
    (main rt prog args).ZeroWhenVerdict := by
  unfold main mainTry
  dsimp only
  repeat' split
  all_goals first
    | exact zeroWhenVerdict_undefined _
    | exact zeroWhenVerdict_zero _
    | (apply zeroWhenVerdict_of_no_verdict
       simp [Event.isVerdict, passedLine2, failedLine2])

theorem main3_zeroWhenVerdict (rt : Runtime) (prog : String) (args : List String) :
    (main3 rt prog args).ZeroWhenVerdict := by
  unfold main3 main3Try
  dsimp only
  repeat' split
  all_goals first
    | exact zeroWhenVerdict_undefined _
    | exact zeroWhenVerdict_zero _
    | (apply zeroWhenVerdict_of_no_verdict
       simp [Event.isVerdict, passedLine2, failedLine2])

theorem main2_zeroWhenVerdict (rt : Runtime) (prog : String) (args : List String) :
    (main2 rt prog args).ZeroWhenVerdict := by
  unfold main2 main2Infer main2Check catchOrtStd EXIT_FAILURE EXIT_SUCCESS
  dsimp only
  repeat' split
  all_goals first
    | exact zeroWhenVerdict_undefined _
    | exact zeroWhenVerdict_terminate _
    | exact zeroWhenVerdict_zero _
    | (apply zeroWhenVerdict_of_no_verdict
       simp [Event.isVerdict, passedLine2, failedLine2])

/-- Claim C4, as amended.  The verdict does not influence the exit code: a run of
`main.cpp`, `main2.cpp` or `main3.cpp` that prints a verdict, PASSED or FAILED, and
returns, returns 0, so a non-zero exit code comes only from a run that prints no
verdict.  And a run in which the model executes and gives an output element for every
sample does print a verdict and return 0. -/
theorem C4_exit_code_zero_whenever_verdict_printed (rt : Runtime) (prog : String) :
    (∀ (args : List String) (trace : List Event) (code : ℤ),
      (main rt prog args = .exit trace code ∨ main2 rt prog args = .exit trace code ∨
        main3 rt prog args = .exit trace code) →
      (∃ e ∈ trace, e.isVerdict = true) → code = 0) ∧
    (∀ (session : Session) (arg : String) (x y : F32) (ys : List F32) (t : OrtValue),
      rt.stof arg = .ok x →
      Executes rt "linear_inference" session "input" "output" [x] [1, 1] t (y :: ys) →
      ∃ trace, main rt prog [arg] = .exit trace 0 ∧ ∃ e ∈ trace, e.isVerdict = true) ∧
    (∀ (session : Session) (arg : String) (x y : F32) (ys : List F32) (t : OrtValue)
        (i0 o0 : Node) (is os : List Node),
      rt.stof arg = .ok x →
      session.inputs = i0 :: is → session.outputs = o0 :: os →
      Executes rt "linear_inference_session" session i0.name o0.name [x] [1, 1] t (y :: ys) →
      t.IsTensor = true →
      ∃ trace, main2 rt prog [arg] = .exit trace 0 ∧ ∃ e ∈ trace, e.isVerdict = true) ∧
    (∀ (session : Session) (args : List String) (xs ys : List F32) (t : OrtValue),
      1 ≤ args.length → args.length ≤ 5 →
      parseInputs rt.stof args = .ok xs →
      Executes rt "linear_inference" session "input" "output" xs [(args.length : ℤ), 1] t ys →
      xs.length ≤ ys.length →
      ∃ trace, main3 rt prog args = .exit trace 0 ∧ ∃ e ∈ trace, e.isVerdict = true) := by
  refine ⟨?_, ?_, ?_, ?_⟩
  · intro args trace code h hv
    rcases h with h | h | h
    · exact main_zeroWhenVerdict rt prog args trace code h hv
    · exact main2_zeroWhenVerdict rt prog args trace code h hv
    · exact main3_zeroWhenVerdict rt prog args trace code h hv
  · intro session arg x y ys t hstof hexec
    have hm : main rt prog [arg] = mainTry rt [arg] := by simp [main]
    refine ⟨_, hm.trans (mainTry_of_executes rt session arg [] x y ys t hstof hexec),
      .out [.str "Test ", .str (verdictWord (floatToInt rt.oor (round y))
         (floatToInt rt.oor (round (mul2 x))))], by simp, by simp [Event.isVerdict]⟩
  · intro session arg x y ys t i0 o0 is os hstof hin hout hexec ht
    refine ⟨_, main2_of_executes rt prog session arg x y ys t i0 o0 is os hstof hin hout
      hexec ht, if feq (intToFloat (floatToInt rt.oor (round y))) (mul2 x) then passedLine2
       else failedLine2, by simp, ?_⟩
    split <;> simp [Event.isVerdict, passedLine2, failedLine2]
  · intro session args xs ys t h1 h5 hparse hexec hlen
    have hn := parseInputs_length rt.stof args xs hparse
    have hm : main3 rt prog args = main3Try rt args := by
      have : ¬ (args.length + 1 < 2 ∨ args.length + 1 > 6) := by omega
      simp [main3, this]
    refine ⟨_, hm.trans (main3Try_of_executes rt session args xs ys t hparse hexec hlen), ?_⟩
    match xs, ys, hn, hlen with
    | [], _, hn, _ => simp at hn; omega
    | x :: xs, [], _, hlen => simp at hlen
    | x :: xs, y :: ys, _, _ =>
      refine ⟨.out [.str "Test ", .size (0 + 1), .str " ",
        .str (verdictWord (floatToInt rt.oor (round y))
          (floatToInt rt.oor (round (mul2 x))))], ?_, by simp [Event.isVerdict]⟩
      simp [List.enum, List.enumFrom_cons, sampleLines]

/-- Witness of C4 as amended: on the argument `1`, with a model whose output is 5,
`main.cpp` prints `Test FAILED` and returns 0. -/
theorem C4_exit_code_zero_whenever_verdict_printed_witness :
    main (sampleRuntime (constantSession (.fin 5))) "linear" ["1"] =
      .exit (callTrace [.fin 1] [1, 1] (.tensor [.fin 1] [1, 1]) ++
        [.out [.str "Input: ", .flt (.fin 1)],
         .out [.str "Output: ", .flt (.fin 5)],
         .out [.str "Expected: ", .int 2],
         .out [.str "Test ", .str "FAILED"]]) 0 ∧
    (∃ e ∈ callTrace [.fin 1] [1, 1] (.tensor [.fin 1] [1, 1]) ++
        [.out [.str "Input: ", .flt (.fin 1)],
         .out [.str "Output: ", .flt (.fin 5)],
         .out [.str "Expected: ", .int 2],
         Event.out [.str "Test ", .str "FAILED"]], e.isVerdict = true) ∧
    (0 : ℤ) = 0 :=
  have hrun : main (sampleRuntime (constantSession (.fin 5))) "linear" ["1"] =
      .exit (callTrace [.fin 1] [1, 1] (.tensor [.fin 1] [1, 1]) ++
        [.out [.str "Input: ", .flt (.fin 1)],
         .out [.str "Output: ", .flt (.fin 5)],
         .out [.str "Expected: ", .int 2],
         .out [.str "Test ", .str "FAILED"]]) 0 := by decide!
  have hv : ∃ e ∈ callTrace [.fin 1] [1, 1] (.tensor [.fin 1] [1, 1]) ++
        [.out [.str "Input: ", .flt (.fin 1)],
         .out [.str "Output: ", .flt (.fin 5)],
         .out [.str "Expected: ", .int 2],
         Event.out [.str "Test ", .str "FAILED"]], e.isVerdict = true :=
    ⟨.out [.str "Test ", .str "FAILED"], by simp, by decide⟩
  ⟨hrun, hv,
   (C4_exit_code_zero_whenever_verdict_printed (sampleRuntime (constantSession (.fin 5)))
     "linear").1 ["1"] _ 0 (Or.inl hrun) hv⟩

/-- Claim C4 fails as stated: on the argument `1`, with a model whose output is 5, the
model executes and the verdict of the sample is FAILED (5 against the expected 2), yet
`main.cpp` returns 0; and on the argument `0.25`, with the doubling model, `main2.cpp`
reports `Test FAILED` and returns 0 as well. -/
theorem C4_counterexample :
    main (sampleRuntime (constantSession (.fin 5))) "linear" ["1"] =
      .exit
        [.env "linear_inference", .session "data/linear/linear.onnx",
         .createTensor [.fin 1] 1 [1, 1],
         .run ["input"] [.tensor [.fin 1] [1, 1]] ["output"],
         .out [.str "Input: ", .flt (.fin 1)],
         .out [.str "Output: ", .flt (.fin 5)],
         .out [.str "Expected: ", .int 2],
         .out [.str "Test ", .str "FAILED"]] 0 ∧
    main2 (sampleRuntime doublingSession) "linear" ["0.25"] =
      .exit (main2Lines (.fin (1 / 4)) "input" "output" (.tensor [.fin (1 / 4)] [1, 1])
        (.fin (1 / 2)) ++ [failedLine2, finishedLine2]) 0 := by
  constructor <;> decide!

/-! ## Static and dynamic shapes -/

theorem is_shape_static_iff : ∀ (shape : List ℤ),
    is_shape_static shape = true ↔ ∀ d ∈ shape, d ≠ -1
  | [] => by simp [is_shape_static]
  | dim :: rest => by
    have ih := is_shape_static_iff rest
    by_cases h : dim = -1
    · simp [is_shape_static, h]
    · simp [is_shape_static, h, ih]

theorem dynamic_mem_shapeItems : ∀ (shape : List ℤ),
    Item.str "dynamic" ∈ shapeItems shape ↔ -1 ∈ shape
  | [] => by simp [shapeItems]
  | [dim] => by
    by_cases h : dim = -1
    · simp [shapeItems, dimItem, h]
    · have h' : ¬ (-1 : ℤ) = dim := fun e => h e.symm
      simp [shapeItems, dimItem, h, h']
  | dim :: dim2 :: rest => by
    have ih := dynamic_mem_shapeItems (dim2 :: rest)
    by_cases h : dim = -1
    · simp [shapeItems, dimItem, h]
    · have h' : ¬ (-1 : ℤ) = dim := fun e => h e.symm
      rw [shapeItems, List.mem_cons, List.mem_cons, ih]
      · simp [dimItem, h, h']
      · simp

/-- Claim C5, as amended.  `is_shape_static` returns true exactly when no dimension
equals the dynamic marker `-1`: a shape containing `-1` yields false, and a shape whose
dimensions are all non-negative yields true. -/
theorem C5_is_shape_static_iff_no_marker (shape : List ℤ) :
    (is_shape_static shape = true ↔ ∀ d ∈ shape, d ≠ -1) ∧
    (-1 ∈ shape → is_shape_static shape = false) ∧
    ((∀ d ∈ shape, 0 ≤ d) → is_shape_static shape = true) := by
  refine ⟨is_shape_static_iff shape, ?_, ?_⟩
  · intro hmem
    cases hs : is_shape_static shape
    · rfl
    · exact absurd rfl ((is_shape_static_iff shape).mp hs (-1) hmem)
  · intro hnonneg
    rw [is_shape_static_iff]
    intro d hd hneg
    have := hnonneg d hd
    omega

/-- Witness of C5 as amended: the shape `[-1, 1]` contains the marker and is not
static; the dimensions of `[3, 1]` are non-negative and the shape is static. -/
theorem C5_is_shape_static_iff_no_marker_witness :
    ((-1 : ℤ) ∈ ([-1, 1] : List ℤ) ∧ is_shape_static [-1, 1] = false) ∧
    ((∀ d ∈ ([3, 1] : List ℤ), 0 ≤ d) ∧ is_shape_static [3, 1] = true) :=
  ⟨⟨by decide, (C5_is_shape_static_iff_no_marker [-1, 1]).2.1 (by decide)⟩,
   ⟨by decide, (C5_is_shape_static_iff_no_marker [3, 1]).2.2 (by decide)⟩⟩

/-- Claim C5 fails as stated: the shape `[-2]` has a negative dimension, which is not a
fixed non-negative integer, and `is_shape_static` returns true on it. -/
theorem C5_counterexample :
    ¬ (is_shape_static [-2] = true ↔ ∀ d ∈ ([-2] : List ℤ), 0 ≤ d) := by
  decide

/-- Claim C6.  `is_shape_static` returns false exactly when a dimension equals `-1`;
the lines the model-info tool prints for a tensor contain `Total Elements: Varies
(dynamic shape)` exactly when the entries it prints for the shape contain `dynamic`;
and the empty shape is static. -/
theorem C6_dynamic_iff_marker_present (shape : List ℤ) (kind : String) (i : ℕ)
    (node : Node) :
    (is_shape_static shape = false ↔ -1 ∈ shape) ∧
    (Event.out [.str "    Total Elements: Varies (dynamic shape)"] ∈ describeNode kind i node ↔
      Item.str "dynamic" ∈ shapeItems node.info.shape) ∧
    (shapeLine node.info.shape ∈ describeNode kind i node ∧
      shapeLine node.info.shape =
        .out ([.str "    Shape: ["] ++ shapeItems node.info.shape ++ [.str "]"])) ∧
    is_shape_static [] = true := by
  have hfalse : ∀ s : List ℤ, is_shape_static s = false ↔ -1 ∈ s := by
    intro s
    rw [← Bool.not_eq_true, is_shape_static_iff]
    push_neg
    constructor
    · rintro ⟨d, hd, rfl⟩
      exact hd
    · intro h
      exact ⟨-1, h, rfl⟩
  refine ⟨hfalse shape, ?_, ⟨by simp [describeNode], rfl⟩, rfl⟩
  rw [dynamic_mem_shapeItems, ← hfalse]
  cases hs : is_shape_static node.info.shape <;>
    simp [describeNode, totalElementsLine, shapeLine, hs]

/-! ## Command lines of the batch tool -/

theorem main3Try_ne_usage (rt : Runtime) (prog : String) (args : List String) :
    main3Try rt args ≠ .exit [usageLine3 prog] 1 := by
  unfold main3Try usageLine3
  dsimp only
  repeat' split
  all_goals simp [catchStd]

/-- Claim C7.  `main3.cpp` goes on to its `try` block, which parses the arguments and
runs the inference, exactly when the number of arguments is between 1 and 5; with no
argument or more than 5 the whole run is the usage line on `std::cerr` and the exit
code 1: no session is created and no tensor is built. -/
theorem C7_main3_argument_count (rt : Runtime) (prog : String) (args : List String) :
    ((1 ≤ args.length ∧ args.length ≤ 5) → main3 rt prog args = main3Try rt args) ∧
    (¬ (1 ≤ args.length ∧ args.length ≤ 5) → main3 rt prog args = .exit [usageLine3 prog] 1) ∧
    (main3 rt prog args = .exit [usageLine3 prog] 1 ↔ ¬ (1 ≤ args.length ∧ args.length ≤ 5)) := by
  have hyes : (1 ≤ args.length ∧ args.length ≤ 5) → main3 rt prog args = main3Try rt args := by
    intro h
    have : ¬ (args.length + 1 < 2 ∨ args.length + 1 > 6) := by omega
    simp [main3, this]
  have hno : ¬ (1 ≤ args.length ∧ args.length ≤ 5) →
      main3 rt prog args = .exit [usageLine3 prog] 1 := by
    intro h
    have : args.length + 1 < 2 ∨ args.length + 1 > 6 := by omega
    simp [main3, this, usageLine3]
  refine ⟨hyes, hno, ?_, hno⟩
  intro h hacc
  rw [hyes hacc] at h
  exact main3Try_ne_usage rt prog args h

/-- Witness of C7: three arguments are accepted; no argument and six arguments give
the usage line and the exit code 1. -/
theorem C7_main3_argument_count_witness :
    ((1 ≤ (["1", "2", "3"] : List String).length ∧ (["1", "2", "3"] : List String).length ≤ 5) ∧
      main3 (sampleRuntime doublingSession) "linear" ["1", "2", "3"] =
        main3Try (sampleRuntime doublingSession) ["1", "2", "3"]) ∧
    (¬ (1 ≤ ([] : List String).length ∧ ([] : List String).length ≤ 5) ∧
      main3 (sampleRuntime doublingSession) "linear" [] = .exit [usageLine3 "linear"] 1) ∧
    (¬ (1 ≤ (["1", "2", "3", "1", "2", "3"] : List String).length ∧
        (["1", "2", "3", "1", "2", "3"] : List String).length ≤ 5) ∧
      main3 (sampleRuntime doublingSession) "linear" ["1", "2", "3", "1", "2", "3"] =
        .exit [usageLine3 "linear"] 1) :=
  ⟨⟨by decide, (C7_main3_argument_count (sampleRuntime doublingSession) "linear"
      ["1", "2", "3"]).1 (by decide)⟩,
   ⟨by decide, (C7_main3_argument_count (sampleRuntime doublingSession) "linear"
      []).2.1 (by decide)⟩,
   ⟨by decide, (C7_main3_argument_count (sampleRuntime doublingSession) "linear"
      ["1", "2", "3", "1", "2", "3"]).2.1 (by decide)⟩⟩

theorem parseInputs_error_of_mem (stof : String → Except StofError F32) :
    ∀ (args : List String), (∃ a ∈ args, ∃ e, stof a = .error e) →
      ∃ e, (∃ a ∈ args, stof a = .error e) ∧ parseInputs stof args = .error e
  | [], h => by
    obtain ⟨a, ha, _⟩ := h
    simp at ha
  | arg :: rest, h => by
    cases hs : stof arg with
    | error e =>
      exact ⟨e, ⟨arg, by simp, hs⟩, by simp [parseInputs, hs]⟩
    | ok v =>
      have hrest : ∃ a ∈ rest, ∃ e, stof a = .error e := by
        obtain ⟨a, ha, e, he⟩ := h
        rcases List.mem_cons.mp ha with rfl | ha'
        · rw [hs] at he
          exact absurd he (by simp)
        · exact ⟨a, ha', e, he⟩
      obtain ⟨e, ⟨a, ha, he⟩, hp⟩ := parseInputs_error_of_mem stof rest hrest
      exact ⟨e, ⟨a, List.mem_cons_of_mem _ ha, he⟩, by simp [parseInputs, hs, hp]⟩

/-- Claim C8.  When `main3.cpp` is given 1 to 5 arguments of which at least one, at any
position, makes `std::stof` throw, the whole run is one line `Error: <what>` on
`std::cerr`, for the exception of an argument that failed, and the exit code 1: no line
is printed for the arguments that did parse, no session is created, no tensor is built
and the model is not run. -/
theorem C8_main3_parse_failure_no_verdict (rt : Runtime) (prog : String)
    (args : List String) (h1 : 1 ≤ args.length) (h5 : args.length ≤ 5)
    (hfail : ∃ a ∈ args, ∃ e, rt.stof a = .error e) :
    ∃ e, (∃ a ∈ args, rt.stof a = .error e) ∧
      main3 rt prog args = .exit [.err [.str "Error: ", .str e.what]] 1 := by
  obtain ⟨e, hmem, hp⟩ := parseInputs_error_of_mem rt.stof args hfail
  refine ⟨e, hmem, ?_⟩
  have : ¬ (args.length + 1 < 2 ∨ args.length + 1 > 6) := by omega
  simp [main3, this, main3Try, hp, catchStd]

/-- Witness of C8: of the arguments `1 abc 3` the second does not parse. -/
theorem C8_main3_parse_failure_no_verdict_witness :
    (1 ≤ (["1", "abc", "3"] : List String).length ∧
      (["1", "abc", "3"] : List String).length ≤ 5 ∧
      ∃ a ∈ (["1", "abc", "3"] : List String), ∃ e,
        (sampleRuntime doublingSession).stof a = .error e) ∧
    ∃ e, (∃ a ∈ (["1", "abc", "3"] : List String),
        (sampleRuntime doublingSession).stof a = .error e) ∧
      main3 (sampleRuntime doublingSession) "linear" ["1", "abc", "3"] =
        .exit [.err [.str "Error: ", .str e.what]] 1 :=
  have hfail : ∃ a ∈ (["1", "abc", "3"] : List String), ∃ e,
      (sampleRuntime doublingSession).stof a = .error e :=
    ⟨"abc", by decide, .invalid_argument "stof", by decide⟩
  ⟨⟨by decide, by decide, hfail⟩,
   C8_main3_parse_failure_no_verdict (sampleRuntime doublingSession) "linear"
     ["1", "abc", "3"] (by decide) (by decide) hfail⟩

/-! ## The input tensor -/

theorem main3Try_createTensor_prefix (rt : Runtime) (session : Session)
    (args : List String) (xs : List F32)
    (hparse : parseInputs rt.stof args = .ok xs)
    (henv : rt.createEnv "linear_inference" = .ok ())
    (hsess : rt.createSession "data/linear/linear.onnx" = .ok session) :
    [Event.env "linear_inference", .session "data/linear/linear.onnx",
      .createTensor xs xs.length [(args.length : ℤ), 1]] <+: (main3Try rt args).trace := by
  unfold main3Try
  simp only [hparse, henv, hsess]
  repeat' split
  all_goals simp [catchStd, Outcome.trace, List.prefix_iff_eq_append]

theorem mainTry_createTensor_prefix (rt : Runtime) (session : Session)
    (arg : String) (x : F32)
    (hstof : rt.stof arg = .ok x)
    (henv : rt.createEnv "linear_inference" = .ok ())
    (hsess : rt.createSession "data/linear/linear.onnx" = .ok session) :
    [Event.env "linear_inference", .session "data/linear/linear.onnx",
      .createTensor [x] 1 [1, 1]] <+: (mainTry rt [arg]).trace := by
  unfold mainTry
  simp only [hstof, henv, hsess]
  repeat' split
  all_goals simp [catchStd, Outcome.trace, List.prefix_iff_eq_append]

theorem main2_createTensor_prefix (rt : Runtime) (prog : String) (session : Session)
    (arg : String) (x : F32)
    (hstof : rt.stof arg = .ok x)
    (henv : rt.createEnv "linear_inference_session" = .ok ())
    (hsess : rt.createSession "data/linear/linear.onnx" = .ok session) :
    [Event.out [.str "--- ONNX Runtime Simple Linear Model Inference Example ---"],
      .out [.str "Input number received from command line: ", .flt x],
      .env "linear_inference_session", .session "data/linear/linear.onnx",
      .out [.str "Model loaded successfully from: ", .str "data/linear/linear.onnx"],
      .createTensor [x] 1 [1, 1]] <+: (main2 rt prog [arg]).trace := by
  have hm : main2 rt prog [arg] = main2Infer rt
      [.out [.str "--- ONNX Runtime Simple Linear Model Inference Example ---"],
       .out [.str "Input number received from command line: ", .flt x]] x := by
    simp [main2, hstof]
  rw [hm]
  unfold main2Infer main2Check catchOrtStd
  simp only [henv, hsess]
  repeat' split
  all_goals simp [Outcome.trace, List.prefix_iff_eq_append]

theorem invariant_batch (values : List F32) (h : 1 ≤ values.length) :
    RawInputBatch.Invariant [-1, 1] ⟨"input", values, [(values.length : ℤ), 1]⟩ := by
  refine ⟨?_, by simp, by simp, ?_⟩
  · intro d hd
    simp at hd
    rcases hd with rfl | rfl
    · exact_mod_cast h
    · decide
  · exact List.Forall₂.cons (by simp) (List.Forall₂.cons (by simp) List.Forall₂.nil)

/-- Claim C9.  For every accepted list of `n` arguments (`1 ≤ n ≤ 5`) that all parse,
once the environment and the session are created, `main3.cpp` creates its input tensor
over the parsed values, in command-line order, with the element count `n` and the shape
`[n, 1]`: the rank is 2, the first dimension is positive, the second is 1, the product
of the shape is the number of values, and the batch satisfies the `RawInputBatch`
invariant against a descriptor of shape `[-1, 1]`.  The same holds for `main.cpp` and
`main2.cpp` with `n = 1` and the shape `[1, 1]`. -/
theorem C9_input_batch_shape (rt : Runtime) (prog : String) (session : Session) :
    (∀ (args : List String) (xs : List F32),
      1 ≤ args.length → args.length ≤ 5 →
      parseInputs rt.stof args = .ok xs →
      rt.createEnv "linear_inference" = .ok () →
      rt.createSession "data/linear/linear.onnx" = .ok session →
      [Event.env "linear_inference", .session "data/linear/linear.onnx",
        .createTensor xs args.length [(args.length : ℤ), 1]] <+: (main3 rt prog args).trace ∧
      List.Forall₂ (fun a x => rt.stof a = .ok x) args xs ∧
      ([(args.length : ℤ), 1] : List ℤ).prod = xs.length ∧
      ([(args.length : ℤ), 1] : List ℤ).length = 2 ∧
      (0 : ℤ) < args.length ∧
      RawInputBatch.Invariant [-1, 1] ⟨"input", xs, [(args.length : ℤ), 1]⟩) ∧
    (∀ (arg : String) (x : F32),
      rt.stof arg = .ok x →
      rt.createEnv "linear_inference" = .ok () →
      rt.createSession "data/linear/linear.onnx" = .ok session →
      [Event.env "linear_inference", .session "data/linear/linear.onnx",
        .createTensor [x] 1 [1, 1]] <+: (main rt prog [arg]).trace ∧
      RawInputBatch.Invariant [-1, 1] ⟨"input", [x], [1, 1]⟩) ∧
    (∀ (arg : String) (x : F32),
      rt.stof arg = .ok x →
      rt.createEnv "linear_inference_session" = .ok () →
      rt.createSession "data/linear/linear.onnx" = .ok session →
      [Event.out [.str "--- ONNX Runtime Simple Linear Model Inference Example ---"],
        .out [.str "Input number received from command line: ", .flt x],
        .env "linear_inference_session", .session "data/linear/linear.onnx",
        .out [.str "Model loaded successfully from: ", .str "data/linear/linear.onnx"],
        .createTensor [x] 1 [1, 1]] <+: (main2 rt prog [arg]).trace) := by
  refine ⟨?_, ?_, ?_⟩
  · intro args xs h1 h5 hparse henv hsess
    have hn := parseInputs_length rt.stof args xs hparse
    have hm : main3 rt prog args = main3Try rt args := by
      have : ¬ (args.length + 1 < 2 ∨ args.length + 1 > 6) := by omega
      simp [main3, this]
    have hpre := main3Try_createTensor_prefix rt session args xs hparse henv hsess
    have hinv := invariant_batch xs (by omega)
    rw [hn] at hpre hinv
    refine ⟨hm ▸ hpre, parseInputs_forall₂ rt.stof args xs hparse, by simp [hn], rfl,
      by exact_mod_cast h1, hinv⟩
  · intro arg x hstof henv hsess
    have hm : main rt prog [arg] = mainTry rt [arg] := by simp [main]
    exact ⟨hm ▸ mainTry_createTensor_prefix rt session arg x hstof henv hsess,
      invariant_batch [x] (by simp)⟩
  · intro arg x hstof henv hsess
    exact main2_createTensor_prefix rt prog session arg x hstof henv hsess

/-- Witness of C9: the arguments `1 2 3` give the values 1, 2, 3 and the shape
`[3, 1]`; the argument `3` gives the value 3 and the shape `[1, 1]`. -/
theorem C9_input_batch_shape_witness :
    ([Event.env "linear_inference", .session "data/linear/linear.onnx",
        .createTensor [.fin 1, .fin 2, .fin 3] (["1", "2", "3"] : List String).length
          [((["1", "2", "3"] : List String).length : ℤ), 1]] <+:
        (main3 (sampleRuntime doublingSession) "linear" ["1", "2", "3"]).trace ∧
      List.Forall₂ (fun a x => (sampleRuntime doublingSession).stof a = .ok x)
        ["1", "2", "3"] [.fin 1, .fin 2, .fin 3] ∧
      ([((["1", "2", "3"] : List String).length : ℤ), 1] : List ℤ).prod =
        ([.fin 1, .fin 2, .fin 3] : List F32).length ∧
      ([((["1", "2", "3"] : List String).length : ℤ), 1] : List ℤ).length = 2 ∧
      (0 : ℤ) < (["1", "2", "3"] : List String).length ∧
      RawInputBatch.Invariant [-1, 1]
        ⟨"input", [.fin 1, .fin 2, .fin 3], [((["1", "2", "3"] : List String).length : ℤ), 1]⟩) ∧
    ([Event.env "linear_inference", .session "data/linear/linear.onnx",
        .createTensor [.fin 3] 1 [1, 1]] <+:
        (main (sampleRuntime doublingSession) "linear" ["3"]).trace ∧
      RawInputBatch.Invariant [-1, 1] ⟨"input", [.fin 3], [1, 1]⟩) ∧
    ([Event.out [.str "--- ONNX Runtime Simple Linear Model Inference Example ---"],
        .out [.str "Input number received from command line: ", .flt (.fin 3)],
        .env "linear_inference_session", .session "data/linear/linear.onnx",
        .out [.str "Model loaded successfully from: ", .str "data/linear/linear.onnx"],
        .createTensor [.fin 3] 1 [1, 1]] <+:
        (main2 (sampleRuntime doublingSession) "linear" ["3"]).trace) :=
  have h := C9_input_batch_shape (sampleRuntime doublingSession) "linear" doublingSession
  ⟨h.1 ["1", "2", "3"] [.fin 1, .fin 2, .fin 3] (by decide) (by decide) (by decide!) rfl rfl,
   h.2.1 "3" (.fin 3) rfl rfl rfl,
   h.2.2 "3" (.fin 3) rfl rfl rfl⟩

/-! ## The outputs requested by `main2.cpp` -/

theorem main2_run_calls (rt : Runtime) (prog : String) (session : Session) (arg : String)
    (x : F32) (t : OrtValue) (i0 o0 : Node) (is os : List Node)
    (hstof : rt.stof arg = .ok x)
    (henv : rt.createEnv "linear_inference_session" = .ok ())
    (hsess : rt.createSession "data/linear/linear.onnx" = .ok session)
    (hin : session.inputs = i0 :: is) (hout : session.outputs = o0 :: os)
    (htensor : rt.createTensor [x] 1 [1, 1] = .ok t)
    (ht : t.IsTensor = true) :
    (main2 rt prog [arg]).trace.filter Event.isRun = [.run [i0.name] [t] [o0.name]] := by
  have hm : main2 rt prog [arg] = main2Infer rt
      [.out [.str "--- ONNX Runtime Simple Linear Model Inference Example ---"],
       .out [.str "Input number received from command line: ", .flt x]] x := by
    simp [main2, hstof]
  rw [hm]
  unfold main2Infer main2Check catchOrtStd
  simp only [henv, hsess, List.length_singleton, htensor, ht, collectNames_eq, hin, hout,
    List.map_cons]
  repeat' split
  all_goals simp_all [Outcome.trace, Event.isRun, List.filter]

/-- Claim C10, as amended.  The execution call of `main2.cpp` passes the output count 1
whatever the model declares: when the model declares at least one input and one
output, the only call of `Run` requests exactly one output, the first declared one
(and binds the first declared input name); the names requested are the declared
output names exactly when the model declares a single output. -/
theorem C10_main2_requests_first_output (rt : Runtime) (prog : String) (session : Session)
    (arg : String) (x : F32) (t : OrtValue) (i0 o0 : Node) (is os : List Node)
    (hstof : rt.stof arg = .ok x)
    (henv : rt.createEnv "linear_inference_session" = .ok ())
    (hsess : rt.createSession "data/linear/linear.onnx" = .ok session)
    (hin : session.inputs = i0 :: is) (hout : session.outputs = o0 :: os)
    (htensor : rt.createTensor [x] 1 [1, 1] = .ok t)
    (ht : t.IsTensor = true) :
    (main2 rt prog [arg]).trace.filter Event.isRun = [.run [i0.name] [t] [o0.name]] ∧
    [o0.name] = session.outputNames.take 1 ∧
    ([o0.name] = session.outputNames ↔ session.outputs.length = 1) := by
  refine ⟨main2_run_calls rt prog session arg x t i0 o0 is os hstof henv hsess hin hout
    htensor ht, by simp [Session.outputNames, hout], ?_⟩
  simp [Session.outputNames, hout]

/-- Witness of C10 as amended: with the doubling model, which declares the single
output `output`, the call requests `output`. -/
theorem C10_main2_requests_first_output_witness :
    (main2 (sampleRuntime doublingSession) "linear" ["3"]).trace.filter Event.isRun =
      [.run [(⟨"input", ⟨.FLOAT, [-1, 1], 0⟩⟩ : Node).name] [.tensor [.fin 3] [1, 1]]
        [(⟨"output", ⟨.FLOAT, [-1, 1], 0⟩⟩ : Node).name]] ∧
    [(⟨"output", ⟨.FLOAT, [-1, 1], 0⟩⟩ : Node).name] = doublingSession.outputNames.take 1 ∧
    ([(⟨"output", ⟨.FLOAT, [-1, 1], 0⟩⟩ : Node).name] = doublingSession.outputNames ↔
      doublingSession.outputs.length = 1) :=
  C10_main2_requests_first_output (sampleRuntime doublingSession) "linear" doublingSession
    "3" (.fin 3) (.tensor [.fin 3] [1, 1]) ⟨"input", ⟨.FLOAT, [-1, 1], 0⟩⟩
    ⟨"output", ⟨.FLOAT, [-1, 1], 0⟩⟩ [] [] rfl rfl rfl rfl rfl rfl rfl

/-- Claim C10 fails as stated: with a model that declares the two outputs `output` and
`copy`, the call of `Run` issued by `main2.cpp` requests the single output `output`:
one name for two declared outputs. -/
theorem C10_counterexample :
    main2 (sampleRuntime twoOutputSession) "linear" ["3"] =
      .exit
        [.out [.str "--- ONNX Runtime Simple Linear Model Inference Example ---"],
         .out [.str "Input number received from command line: ", .flt (.fin 3)],
         .env "linear_inference_session",
         .session "data/linear/linear.onnx",
         .out [.str "Model loaded successfully from: ", .str "data/linear/linear.onnx"],
         .createTensor [.fin 3] 1 [1, 1],
         .out [.str "Input data prepared: ", .flt (.fin 3)],
         .out [.str "Input tensor shape: [", .int 1, .str ", ", .int 1, .str "]"],
         .out [.str "Running inference..."],
         .run ["input"] [.tensor [.fin 3] [1, 1]] ["output"],
         .out [.str "Inference completed."],
         .out [.str "Inferred output: ", .flt (.fin 6)],
         .out [.str "Expected output: ", .flt (.fin 6)],
         .out [.str "Inference result matches expected value after rounding. Test PASSED!"],
         .out [.str "--- Program finished successfully ---"]] 0 ∧
    twoOutputSession.outputNames = ["output", "copy"] ∧
    (["output"] : List String).length ≠ twoOutputSession.outputs.length := by
  refine ⟨by decide!, by decide, by decide⟩

/-! ## Names under which the tensors are bound -/

theorem resultLoop_no_run (oor : F32 → ℤ) (X Y : List F32) :
    ∀ (n i : ℕ), ∀ e ∈ (resultLoop oor X Y n i).1, e.isRun = false
  | 0, _ => by simp [resultLoop]
  | n + 1, i => by
    intro e he
    unfold resultLoop at he
    split at he
    · simp only [List.mem_append] at he
      rcases he with he | he
      · simp [sampleLines] at he
        rcases he with rfl | rfl | rfl | rfl | rfl <;> rfl
      · exact resultLoop_no_run oor X Y n (i + 1) e he
    · simp at he

theorem main_runsUnder (rt : Runtime) (prog : String) (args : List String) :
    (main rt prog args).RunsUnder "input" "output" := by
  unfold Outcome.RunsUnder main mainTry
  dsimp only
  repeat' split
  all_goals simp [catchStd, Outcome.trace, Event.isRun]

theorem main3_runsUnder (rt : Runtime) (prog : String) (args : List String) :
    (main3 rt prog args).RunsUnder "input" "output" := by
  unfold Outcome.RunsUnder main3 main3Try
  dsimp only
  repeat' split
  all_goals first
    | (simp [catchStd, Outcome.trace, Event.isRun]; done)
    | (rename_i lines heq
       have hlines := congrArg Prod.fst heq
       simp only at hlines
       intro e he hrun
       simp only [Outcome.trace, List.mem_append] at he
       rcases he with he | he
       · simp at he
         rcases he with ((rfl | rfl) | rfl) | rfl
         · simp [Event.isRun] at hrun
         · simp [Event.isRun] at hrun
         · simp [Event.isRun] at hrun
         · exact ⟨_, rfl⟩
       · rw [← hlines] at he
         rw [resultLoop_no_run _ _ _ _ _ e he] at hrun
         exact absurd hrun (by simp))

theorem mainTry_of_run_error (rt : Runtime) (session : Session) (arg : String)
    (rest : List String) (x : F32) (t : OrtValue) (err : CppException)
    (hstof : rt.stof arg = .ok x)
    (henv : rt.createEnv "linear_inference" = .ok ())
    (hsess : rt.createSession "data/linear/linear.onnx" = .ok session)
    (htensor : rt.createTensor [x] 1 [1, 1] = .ok t)
    (hrun : session.Run ["input"] [t] ["output"] = .error err) :
    mainTry rt (arg :: rest) =
      .exit (callTrace [x] [1, 1] t ++ [.err [.str "Error: ", .str err.what]]) 1 := by
  simp [mainTry, hstof, henv, hsess, htensor, hrun, catchStd, callTrace]

theorem main3Try_of_run_error (rt : Runtime) (session : Session) (args : List String)
    (xs : List F32) (t : OrtValue) (err : CppException)
    (hparse : parseInputs rt.stof args = .ok xs)
    (henv : rt.createEnv "linear_inference" = .ok ())
    (hsess : rt.createSession "data/linear/linear.onnx" = .ok session)
    (htensor : rt.createTensor xs xs.length [(args.length : ℤ), 1] = .ok t)
    (hrun : session.Run ["input"] [t] ["output"] = .error err) :
    main3Try rt args =
      .exit (callTrace xs [(args.length : ℤ), 1] t ++
        [.err [.str "Error: ", .str err.what]]) 1 := by
  simp [main3Try, hparse, henv, hsess, htensor, hrun, catchStd, callTrace]

/-- Claim C11, as amended.  `main.cpp` and `main3.cpp` bind by name: every call of
`Run` they make supplies the tensor under the fixed name `input` and requests `output`,
whatever the model declares, and when the runtime rejects the call the run ends with the
line `Error: <what>` and the exit code 1, without a verdict, for `main.cpp` and for
every accepted batch of `main3.cpp`.  `main2.cpp` binds to the first declared slot: its
call of `Run` supplies the tensor under the first input name the model declares and
requests the first declared output, whatever these names are. -/
theorem C11_names_bound_by_the_tools (rt : Runtime) (prog : String) :
    (∀ (args : List String),
      (main rt prog args).RunsUnder "input" "output" ∧
      (main3 rt prog args).RunsUnder "input" "output") ∧
    (∀ (session : Session) (arg : String) (x : F32) (t : OrtValue) (err : CppException),
      rt.stof arg = .ok x →
      rt.createEnv "linear_inference" = .ok () →
      rt.createSession "data/linear/linear.onnx" = .ok session →
      rt.createTensor [x] 1 [1, 1] = .ok t →
      session.Run ["input"] [t] ["output"] = .error err →
      main rt prog [arg] =
        .exit [.env "linear_inference", .session "data/linear/linear.onnx",
          .createTensor [x] 1 [1, 1], .run ["input"] [t] ["output"],
          .err [.str "Error: ", .str err.what]] 1) ∧
    (∀ (session : Session) (args : List String) (xs : List F32) (t : OrtValue)
        (err : CppException),
      1 ≤ args.length → args.length ≤ 5 →
      parseInputs rt.stof args = .ok xs →
      rt.createEnv "linear_inference" = .ok () →
      rt.createSession "data/linear/linear.onnx" = .ok session →
      rt.createTensor xs xs.length [(args.length : ℤ), 1] = .ok t →
      session.Run ["input"] [t] ["output"] = .error err →
      main3 rt prog args =
        .exit [.env "linear_inference", .session "data/linear/linear.onnx",
          .createTensor xs xs.length [(args.length : ℤ), 1], .run ["input"] [t] ["output"],
          .err [.str "Error: ", .str err.what]] 1) ∧
    (∀ (session : Session) (arg : String) (x : F32) (t : OrtValue) (i0 o0 : Node)
        (is os : List Node),
      rt.stof arg = .ok x →
      rt.createEnv "linear_inference_session" = .ok () →
      rt.createSession "data/linear/linear.onnx" = .ok session →
      session.inputs = i0 :: is → session.outputs = o0 :: os →
      rt.createTensor [x] 1 [1, 1] = .ok t →
      t.IsTensor = true →
      (main2 rt prog [arg]).trace.filter Event.isRun =
        [.run (session.inputNames.take 1) [t] (session.outputNames.take 1)]) := by
  refine ⟨fun args => ⟨main_runsUnder rt prog args, main3_runsUnder rt prog args⟩,
    ?_, ?_, ?_⟩
  · intro session arg x t err hstof henv hsess htensor hrun
    have hm : main rt prog [arg] = mainTry rt [arg] := by simp [main]
    rw [hm, mainTry_of_run_error rt session arg [] x t err hstof henv hsess htensor hrun]
    simp [callTrace]
  · intro session args xs t err h1 h5 hparse henv hsess htensor hrun
    have hm : main3 rt prog args = main3Try rt args := by
      have : ¬ (args.length + 1 < 2 ∨ args.length + 1 > 6) := by omega
      simp [main3, this]
    rw [hm, main3Try_of_run_error rt session args xs t err hparse henv hsess htensor hrun]
    simp [callTrace]
  · intro session arg x t i0 o0 is os hstof henv hsess hin hout htensor ht
    rw [main2_run_calls rt prog session arg x t i0 o0 is os hstof henv hsess hin hout
      htensor ht]
    simp [Session.inputNames, Session.outputNames, hin, hout]

/-- Witness of C11 as amended: with a model that declares its input under the name
`x`, `main.cpp` on the argument `3` and `main3.cpp` on the arguments `1 2 3` supply the
tensor under `input` and end with the runtime's error; `main2.cpp` supplies it under
`x`. -/
theorem C11_names_bound_by_the_tools_witness :
    main (sampleRuntime renamedSession) "linear" ["3"] =
      .exit [.env "linear_inference", .session "data/linear/linear.onnx",
        .createTensor [.fin 3] 1 [1, 1], .run ["input"] [.tensor [.fin 3] [1, 1]] ["output"],
        .err [.str "Error: ", .str (CppException.ort "Invalid input name").what]] 1 ∧
    main3 (sampleRuntime renamedSession) "linear" ["1", "2", "3"] =
      .exit [.env "linear_inference", .session "data/linear/linear.onnx",
        .createTensor [.fin 1, .fin 2, .fin 3] ([.fin 1, .fin 2, .fin 3] : List F32).length
          [((["1", "2", "3"] : List String).length : ℤ), 1],
        .run ["input"] [.tensor [.fin 1, .fin 2, .fin 3] [3, 1]] ["output"],
        .err [.str "Error: ", .str (CppException.ort "Invalid input name").what]] 1 ∧
    (main2 (sampleRuntime renamedSession) "linear" ["3"]).trace.filter Event.isRun =
      [.run (renamedSession.inputNames.take 1) [.tensor [.fin 3] [1, 1]]
        (renamedSession.outputNames.take 1)] :=
  have h := C11_names_bound_by_the_tools (sampleRuntime renamedSession) "linear"
  ⟨h.2.1 renamedSession "3" (.fin 3) (.tensor [.fin 3] [1, 1]) (.ort "Invalid input name")
      rfl rfl rfl rfl (by decide),
   h.2.2.1 renamedSession ["1", "2", "3"] [.fin 1, .fin 2, .fin 3]
      (.tensor [.fin 1, .fin 2, .fin 3] [3, 1]) (.ort "Invalid input name")
      (by decide) (by decide) (by decide!) rfl rfl rfl (by decide),
   h.2.2.2 renamedSession "3" (.fin 3) (.tensor [.fin 3] [1, 1])
      ⟨"x", ⟨.FLOAT, [-1, 1], 0⟩⟩ ⟨"output", ⟨.FLOAT, [-1, 1], 0⟩⟩ [] []
      rfl rfl rfl rfl rfl rfl rfl⟩

/-- Claim C11 fails as stated: with a model that declares its input under the name `x`
and binds by name, `main2.cpp` on the argument `3` takes the first declared name, runs
the model under it and reports `Test PASSED` with the exit code 0: no missing-input or
unknown-input error arises, the tensor is bound to the slot declared first. -/
theorem C11_counterexample :
    main2 (sampleRuntime renamedSession) "linear" ["3"] =
      .exit
        [.out [.str "--- ONNX Runtime Simple Linear Model Inference Example ---"],
         .out [.str "Input number received from command line: ", .flt (.fin 3)],
         .env "linear_inference_session",
         .session "data/linear/linear.onnx",
         .out [.str "Model loaded successfully from: ", .str "data/linear/linear.onnx"],
         .createTensor [.fin 3] 1 [1, 1],
         .out [.str "Input data prepared: ", .flt (.fin 3)],
         .out [.str "Input tensor shape: [", .int 1, .str ", ", .int 1, .str "]"],
         .out [.str "Running inference..."],
         .run ["x"] [.tensor [.fin 3] [1, 1]] ["output"],
         .out [.str "Inference completed."],
         .out [.str "Inferred output: ", .flt (.fin 6)],
         .out [.str "Expected output: ", .flt (.fin 6)],
         .out [.str "Inference result matches expected value after rounding. Test PASSED!"],
         .out [.str "--- Program finished successfully ---"]] 0 ∧
    renamedSession.inputNames = ["x"] ∧
    renamedSession.Run ["input"] [.tensor [.fin 3] [1, 1]] ["output"] =
      .error (.ort "Invalid input name") := by
  refine ⟨by decide!, by decide, by decide⟩

/-! ## The report of the model-info tool -/

theorem describeNodes_eq (kind : String) :
    ∀ (nodes : List Node) (i : ℕ),
      describeNodes kind i nodes =
        (nodes.enumFrom i).flatMap (fun p => describeNode kind p.1 p.2)
  | [], _ => by simp [describeNodes]
  | node :: rest, i => by
    rw [describeNodes, describeNodes_eq kind rest (i + 1), List.enumFrom_cons,
      List.flatMap_cons]

theorem length_flatMap_describeNode (kind : String) :
    ∀ (nodes : List Node) (i : ℕ),
      ((nodes.enumFrom i).flatMap (fun p => describeNode kind p.1 p.2)).length =
        5 * nodes.length
  | [], _ => by simp
  | node :: rest, i => by
    rw [List.enumFrom_cons, List.flatMap_cons, List.length_append,
      length_flatMap_describeNode kind rest (i + 1), List.length_cons]
    simp [describeNode]
    omega

theorem shapeItems_eq_intersperse : ∀ (dims : List ℤ),
    shapeItems dims =
      List.intersperse (Item.str ", ")
        (dims.map fun d => if d = -1 then Item.str "dynamic" else Item.int d)
  | [] => by simp [shapeItems]
  | [dim] => by simp [shapeItems, dimItem]
  | dim :: dim2 :: rest => by
    have ih := shapeItems_eq_intersperse (dim2 :: rest)
    rw [shapeItems, ih]
    · simp [dimItem]
    · simp

/-- Claim C12.  For every model that loads, with `n` declared inputs and `m` declared
outputs, the model-info tool returns 0 after reporting the count `n`, then one block
per input in declaration order, the count `m`, then one block per output in declaration
order; the block of slot `i` gives its index, its name, its element type and its shape,
in that order, followed by the element-count line; there are `5 * n` and `5 * m` lines
in the two sequences, which are empty when `n = 0` or `m = 0`.  The element type is
reported by the name of its enumerator (`unknown` for any further value) and the shape
by its dimensions in order, separated by `", "`, with `dynamic` for `-1`. -/
theorem C12_model_info_ordered_snapshot (rt : Runtime) (prog model_path : String)
    (session : Session)
    (henv : rt.createEnv "model_info_session" = .ok ())
    (hsess : rt.createSession model_path = .ok session) :
    modelInfoMain rt prog [model_path] = .exit
      ([.out [.str "--- ONNX Runtime Model Information Example ---"],
        .out [.str "Attempting to load model from: ", .str model_path],
        .env "model_info_session",
        .out [.str "ONNX Runtime environment initialized."],
        .session model_path,
        .out [.str "Model loaded successfully."],
        .out [.str "\n--- Input Tensor Information ---"],
        .out [.str "Number of input nodes: ", .size session.inputs.length]] ++
       session.inputs.enum.flatMap (fun p => describeNode "  Input " p.1 p.2) ++
       [.out [.str "\n--- Output Tensor Information ---"],
        .out [.str "Number of output nodes: ", .size session.outputs.length]] ++
       session.outputs.enum.flatMap (fun p => describeNode "  Output " p.1 p.2) ++
       [.out [.str "\n--- Program finished successfully ---"]]) 0 ∧
    (∀ (kind : String) (i : ℕ) (node : Node), describeNode kind i node =
      [.out [.str kind, .size i, .str ":"],
       .out [.str "    Name: ", .str node.name],
       .out [.str "    Data Type: ", .str (get_tensor_data_type_string node.info.elementType)],
       .out ([.str "    Shape: ["] ++
         List.intersperse (Item.str ", ")
           (node.info.shape.map fun d => if d = -1 then Item.str "dynamic" else Item.int d) ++
         [.str "]"]),
       if -1 ∈ node.info.shape then
         .out [.str "    Total Elements: Varies (dynamic shape)"]
       else
         .out [.str "    Total Elements (if static): ", .size node.info.elementCount]]) ∧
    (get_tensor_data_type_string .UNDEFINED = "undefined" ∧
      get_tensor_data_type_string .FLOAT = "float" ∧
      get_tensor_data_type_string .UINT8 = "uint8" ∧
      get_tensor_data_type_string .INT8 = "int8" ∧
      get_tensor_data_type_string .UINT16 = "uint16" ∧
      get_tensor_data_type_string .INT16 = "int16" ∧
      get_tensor_data_type_string .INT32 = "int32" ∧
      get_tensor_data_type_string .INT64 = "int64" ∧
      get_tensor_data_type_string .STRING = "string" ∧
      get_tensor_data_type_string .BOOL = "bool" ∧
      get_tensor_data_type_string .FLOAT16 = "float16" ∧
      get_tensor_data_type_string .DOUBLE = "double" ∧
      get_tensor_data_type_string .UINT32 = "uint32" ∧
      get_tensor_data_type_string .UINT64 = "uint64" ∧
      get_tensor_data_type_string .COMPLEX64 = "complex64" ∧
      get_tensor_data_type_string .COMPLEX128 = "complex128" ∧
      get_tensor_data_type_string .BFLOAT16 = "bfloat16" ∧
      ∀ code, get_tensor_data_type_string (.other code) = "unknown") ∧
    (session.inputs.enum.flatMap (fun p => describeNode "  Input " p.1 p.2)).length =
      5 * session.inputs.length ∧
    (session.outputs.enum.flatMap (fun p => describeNode "  Output " p.1 p.2)).length =
      5 * session.outputs.length ∧
    (session.inputs = [] →
      session.inputs.enum.flatMap (fun p => describeNode "  Input " p.1 p.2) = []) ∧
    (session.outputs = [] →
      session.outputs.enum.flatMap (fun p => describeNode "  Output " p.1 p.2) = []) := by
  refine ⟨?_, ?_, ?_, length_flatMap_describeNode _ _ 0,
    length_flatMap_describeNode _ _ 0, ?_, ?_⟩
  · simp only [modelInfoMain, henv, hsess, describeNodes_eq, List.enum, EXIT_SUCCESS]
    simp
  · intro kind i node
    have hstatic : is_shape_static node.info.shape = true ↔ ¬ (-1 ∈ node.info.shape) := by
      rw [is_shape_static_iff]
      constructor
      · intro h hmem
        exact h (-1) hmem rfl
      · intro h d hd hneg
        exact h (hneg ▸ hd)
    simp only [describeNode, shapeLine, totalElementsLine, shapeItems_eq_intersperse]
    by_cases hmem : -1 ∈ node.info.shape
    · have hs : is_shape_static node.info.shape = false := by
        cases hb : is_shape_static node.info.shape
        · rfl
        · exact absurd hmem (hstatic.mp hb)
      simp [hs, hmem]
    · have hs : is_shape_static node.info.shape = true := hstatic.mpr hmem
      simp [hs, hmem]
  · refine ⟨rfl, rfl, rfl, rfl, rfl, rfl, rfl, rfl, rfl, rfl, rfl, rfl, rfl, rfl, rfl, rfl,
      rfl, fun _ => rfl⟩
  · intro h
    simp [h]
  · intro h
    simp [h]

/-- Witness of C12: a model without inputs and outputs (the two counts are 0, no block
is printed and the exit code is 0), and a model with the inputs `ids` (64-bit integers,
shape `[2, 3]`) and `mask` (booleans, dynamic shape) and the output `logits` (doubles,
shape `[2]`): one block per slot, in declaration order, with its name, type and
shape. -/
theorem C12_model_info_ordered_snapshot_witness :
    modelInfoMain (sampleRuntime emptySession) "model_info" ["empty.onnx"] = .exit
      [.out [.str "--- ONNX Runtime Model Information Example ---"],
       .out [.str "Attempting to load model from: ", .str "empty.onnx"],
       .env "model_info_session",
       .out [.str "ONNX Runtime environment initialized."],
       .session "empty.onnx",
       .out [.str "Model loaded successfully."],
       .out [.str "\n--- Input Tensor Information ---"],
       .out [.str "Number of input nodes: ", .size 0],
       .out [.str "\n--- Output Tensor Information ---"],
       .out [.str "Number of output nodes: ", .size 0],
       .out [.str "\n--- Program finished successfully ---"]] 0 ∧
    modelInfoMain (sampleRuntime typedSession) "model_info" ["typed.onnx"] = .exit
      [.out [.str "--- ONNX Runtime Model Information Example ---"],
       .out [.str "Attempting to load model from: ", .str "typed.onnx"],
       .env "model_info_session",
       .out [.str "ONNX Runtime environment initialized."],
       .session "typed.onnx",
       .out [.str "Model loaded successfully."],
       .out [.str "\n--- Input Tensor Information ---"],
       .out [.str "Number of input nodes: ", .size 2],
       .out [.str "  Input ", .size 0, .str ":"],
       .out [.str "    Name: ", .str "ids"],
       .out [.str "    Data Type: ", .str "int64"],
       .out [.str "    Shape: [", .int 2, .str ", ", .int 3, .str "]"],
       .out [.str "    Total Elements (if static): ", .size 6],
       .out [.str "  Input ", .size 1, .str ":"],
       .out [.str "    Name: ", .str "mask"],
       .out [.str "    Data Type: ", .str "bool"],
       .out [.str "    Shape: [", .str "dynamic", .str "]"],
       .out [.str "    Total Elements: Varies (dynamic shape)"],
       .out [.str "\n--- Output Tensor Information ---"],
       .out [.str "Number of output nodes: ", .size 1],
       .out [.str "  Output ", .size 0, .str ":"],
       .out [.str "    Name: ", .str "logits"],
       .out [.str "    Data Type: ", .str "double"],
       .out [.str "    Shape: [", .int 2, .str "]"],
       .out [.str "    Total Elements (if static): ", .size 2],
       .out [.str "\n--- Program finished successfully ---"]] 0 :=
  ⟨(C12_model_info_ordered_snapshot (sampleRuntime emptySession) "model_info" "empty.onnx"
      emptySession rfl rfl).1.trans (by decide),
   (C12_model_info_ordered_snapshot (sampleRuntime typedSession) "model_info"
      "typed.onnx" typedSession rfl rfl).1.trans (by decide)⟩

/-! ## Tensor construction -/

theorem main3Try_of_createTensor_error (rt : Runtime) (session : Session)
    (args : List String) (xs : List F32) (err : CppException)
    (hparse : parseInputs rt.stof args = .ok xs)
    (henv : rt.createEnv "linear_inference" = .ok ())
    (hsess : rt.createSession "data/linear/linear.onnx" = .ok session)
    (htensor : rt.createTensor xs xs.length [(args.length : ℤ), 1] = .error err) :
    main3Try rt args =
      .exit [.env "linear_inference", .session "data/linear/linear.onnx",
        .createTensor xs xs.length [(args.length : ℤ), 1],
        .err [.str "Error: ", .str err.what]] 1 := by
  simp [main3Try, hparse, henv, hsess, htensor, catchStd]

theorem main3Try_run_prefix (rt : Runtime) (session : Session)
    (args : List String) (xs : List F32) (t : OrtValue)
    (hparse : parseInputs rt.stof args = .ok xs)
    (henv : rt.createEnv "linear_inference" = .ok ())
    (hsess : rt.createSession "data/linear/linear.onnx" = .ok session)
    (htensor : rt.createTensor xs xs.length [(args.length : ℤ), 1] = .ok t) :
    callTrace xs [(args.length : ℤ), 1] t <+: (main3Try rt args).trace := by
  unfold main3Try
  simp only [hparse, henv, hsess, Nat.add_sub_cancel, htensor]
  repeat' split
  all_goals simp [catchStd, Outcome.trace, callTrace, List.prefix_iff_eq_append]

theorem main2_of_createTensor_error (rt : Runtime) (prog : String) (session : Session)
    (arg : String) (x : F32) (err : CppException)
    (hstof : rt.stof arg = .ok x)
    (henv : rt.createEnv "linear_inference_session" = .ok ())
    (hsess : rt.createSession "data/linear/linear.onnx" = .ok session)
    (htensor : rt.createTensor [x] 1 [1, 1] = .error err) :
    main2 rt prog [arg] = catchOrtStd
      [.out [.str "--- ONNX Runtime Simple Linear Model Inference Example ---"],
       .out [.str "Input number received from command line: ", .flt x],
       .env "linear_inference_session", .session "data/linear/linear.onnx",
       .out [.str "Model loaded successfully from: ", .str "data/linear/linear.onnx"],
       .createTensor [x] 1 [1, 1]] err := by
  simp [main2, main2Infer, hstof, henv, hsess, htensor]

theorem main2_of_nonTensor (rt : Runtime) (prog : String) (session : Session)
    (arg : String) (x : F32) (w : String)
    (hstof : rt.stof arg = .ok x)
    (henv : rt.createEnv "linear_inference_session" = .ok ())
    (hsess : rt.createSession "data/linear/linear.onnx" = .ok session)
    (htensor : rt.createTensor [x] 1 [1, 1] = .ok (.nonTensor w)) :
    main2 rt prog [arg] = .exit
      [.out [.str "--- ONNX Runtime Simple Linear Model Inference Example ---"],
       .out [.str "Input number received from command line: ", .flt x],
       .env "linear_inference_session", .session "data/linear/linear.onnx",
       .out [.str "Model loaded successfully from: ", .str "data/linear/linear.onnx"],
       .createTensor [x] 1 [1, 1],
       .err [.str "Error: Created input tensor is not valid!"]] 1 := by
  simp [main2, main2Infer, hstof, henv, hsess, htensor, OrtValue.IsTensor, EXIT_FAILURE]

theorem main2_run_prefix (rt : Runtime) (prog : String) (session : Session) (arg : String)
    (x : F32) (t : OrtValue) (i0 o0 : Node) (is os : List Node)
    (hstof : rt.stof arg = .ok x)
    (henv : rt.createEnv "linear_inference_session" = .ok ())
    (hsess : rt.createSession "data/linear/linear.onnx" = .ok session)
    (hin : session.inputs = i0 :: is) (hout : session.outputs = o0 :: os)
    (htensor : rt.createTensor [x] 1 [1, 1] = .ok t)
    (ht : t.IsTensor = true) :
    [Event.out [.str "--- ONNX Runtime Simple Linear Model Inference Example ---"],
      .out [.str "Input number received from command line: ", .flt x],
      .env "linear_inference_session", .session "data/linear/linear.onnx",
      .out [.str "Model loaded successfully from: ", .str "data/linear/linear.onnx"],
      .createTensor [x] 1 [1, 1],
      .out [.str "Input data prepared: ", .flt x],
      .out [.str "Input tensor shape: [", .int 1, .str ", ", .int 1, .str "]"],
      .out [.str "Running inference..."],
      .run [i0.name] [t] [o0.name]] <+: (main2 rt prog [arg]).trace := by
  have hm : main2 rt prog [arg] = main2Infer rt
      [.out [.str "--- ONNX Runtime Simple Linear Model Inference Example ---"],
       .out [.str "Input number received from command line: ", .flt x]] x := by
    simp [main2, hstof]
  rw [hm]
  unfold main2Infer main2Check catchOrtStd
  simp only [henv, hsess, List.length_singleton, htensor, ht, collectNames_eq, hin, hout,
    List.map_cons]
  repeat' split
  all_goals simp_all [Outcome.trace, List.prefix_iff_eq_append]

/-- Claim C13, as amended.  The tools check nothing against the model's descriptor
when they construct the input tensor: whatever the loaded model declares, `main3.cpp`
creates the tensor over the `n` parsed values with its own shape `[n, 1]`, whose
product is the number of values, and `main2.cpp` over `[x]` with the shape `[1, 1]`.
When the runtime fails to create the tensor the run ends with an error line and the
exit code 1 without running the model (`main2.cpp` also ends so when the value created
is not a tensor); when the tensor is created both tools go on to run the model on
it. -/
theorem C13_tensor_built_without_descriptor_checks (rt : Runtime) (prog : String)
    (session : Session) :
    (∀ (args : List String) (xs : List F32),
      1 ≤ args.length → args.length ≤ 5 →
      parseInputs rt.stof args = .ok xs →
      rt.createEnv "linear_inference" = .ok () →
      rt.createSession "data/linear/linear.onnx" = .ok session →
      ([(args.length : ℤ), 1] : List ℤ).prod = xs.length ∧
      (∀ err, rt.createTensor xs xs.length [(args.length : ℤ), 1] = .error err →
        main3 rt prog args =
          .exit [.env "linear_inference", .session "data/linear/linear.onnx",
            .createTensor xs xs.length [(args.length : ℤ), 1],
            .err [.str "Error: ", .str err.what]] 1) ∧
      (∀ t, rt.createTensor xs xs.length [(args.length : ℤ), 1] = .ok t →
        [Event.env "linear_inference", .session "data/linear/linear.onnx",
          .createTensor xs xs.length [(args.length : ℤ), 1],
          .run ["input"] [t] ["output"]] <+: (main3 rt prog args).trace)) ∧
    (∀ (arg : String) (x : F32),
      rt.stof arg = .ok x →
      rt.createEnv "linear_inference_session" = .ok () →
      rt.createSession "data/linear/linear.onnx" = .ok session →
      (∀ w, rt.createTensor [x] 1 [1, 1] = .error (.ort w) →
        main2 rt prog [arg] = .exit
          [.out [.str "--- ONNX Runtime Simple Linear Model Inference Example ---"],
           .out [.str "Input number received from command line: ", .flt x],
           .env "linear_inference_session", .session "data/linear/linear.onnx",
           .out [.str "Model loaded successfully from: ", .str "data/linear/linear.onnx"],
           .createTensor [x] 1 [1, 1],
           .err [.str "ONNX Runtime Error: ", .str w]] 1) ∧
      (∀ w, rt.createTensor [x] 1 [1, 1] = .error (.std w) →
        main2 rt prog [arg] = .exit
          [.out [.str "--- ONNX Runtime Simple Linear Model Inference Example ---"],
           .out [.str "Input number received from command line: ", .flt x],
           .env "linear_inference_session", .session "data/linear/linear.onnx",
           .out [.str "Model loaded successfully from: ", .str "data/linear/linear.onnx"],
           .createTensor [x] 1 [1, 1],
           .err [.str "Standard C++ Error: ", .str w]] 1) ∧
      (∀ w, rt.createTensor [x] 1 [1, 1] = .ok (.nonTensor w) →
        main2 rt prog [arg] = .exit
          [.out [.str "--- ONNX Runtime Simple Linear Model Inference Example ---"],
           .out [.str "Input number received from command line: ", .flt x],
           .env "linear_inference_session", .session "data/linear/linear.onnx",
           .out [.str "Model loaded successfully from: ", .str "data/linear/linear.onnx"],
           .createTensor [x] 1 [1, 1],
           .err [.str "Error: Created input tensor is not valid!"]] 1) ∧
      (∀ (t : OrtValue) (i0 o0 : Node) (is os : List Node),
        rt.createTensor [x] 1 [1, 1] = .ok t → t.IsTensor = true →
        session.inputs = i0 :: is → session.outputs = o0 :: os →
        [Event.out [.str "--- ONNX Runtime Simple Linear Model Inference Example ---"],
          .out [.str "Input number received from command line: ", .flt x],
          .env "linear_inference_session", .session "data/linear/linear.onnx",
          .out [.str "Model loaded successfully from: ", .str "data/linear/linear.onnx"],
          .createTensor [x] 1 [1, 1],
          .out [.str "Input data prepared: ", .flt x],
          .out [.str "Input tensor shape: [", .int 1, .str ", ", .int 1, .str "]"],
          .out [.str "Running inference..."],
          .run [i0.name] [t] [o0.name]] <+: (main2 rt prog [arg]).trace)) := by
  refine ⟨?_, ?_⟩
  · intro args xs h1 h5 hparse henv hsess
    have hn := parseInputs_length rt.stof args xs hparse
    have hm : main3 rt prog args = main3Try rt args := by
      have : ¬ (args.length + 1 < 2 ∨ args.length + 1 > 6) := by omega
      simp [main3, this]
    refine ⟨by simp [hn], ?_, ?_⟩
    · intro err herr
      rw [hm, main3Try_of_createTensor_error rt session args xs err hparse henv hsess herr]
    · intro t ht
      rw [hm]
      have hp := main3Try_run_prefix rt session args xs t hparse henv hsess ht
      simpa [callTrace] using hp
  · intro arg x hstof henv hsess
    refine ⟨?_, ?_, ?_, ?_⟩
    · intro w hw
      rw [main2_of_createTensor_error rt prog session arg x _ hstof henv hsess hw]
      simp [catchOrtStd, EXIT_FAILURE]
    · intro w hw
      rw [main2_of_createTensor_error rt prog session arg x _ hstof henv hsess hw]
      simp [catchOrtStd, EXIT_FAILURE]
    · intro w hw
      exact main2_of_nonTensor rt prog session arg x w hstof henv hsess hw
    · intro t i0 o0 is os htensor ht hin hout
      exact main2_run_prefix rt prog session arg x t i0 o0 is os hstof henv hsess hin hout
        htensor ht

/-- Witness of C13 as amended: with a model whose input is declared with rank 3,
`main3.cpp` on the arguments `1 2 3` creates the tensor of shape `[3, 1]` and runs the
model on it, and `main2.cpp` on the argument `3` creates the tensor of shape `[1, 1]`
and runs the model on it. -/
theorem C13_tensor_built_without_descriptor_checks_witness :
    (([((["1", "2", "3"] : List String).length : ℤ), 1] : List ℤ).prod =
        ([.fin 1, .fin 2, .fin 3] : List F32).length ∧
      [Event.env "linear_inference", .session "data/linear/linear.onnx",
        .createTensor [.fin 1, .fin 2, .fin 3] ([.fin 1, .fin 2, .fin 3] : List F32).length
          [((["1", "2", "3"] : List String).length : ℤ), 1],
        .run ["input"] [.tensor [.fin 1, .fin 2, .fin 3] [3, 1]] ["output"]] <+:
        (main3 (sampleRuntime rank3Session) "linear" ["1", "2", "3"]).trace) ∧
    [Event.out [.str "--- ONNX Runtime Simple Linear Model Inference Example ---"],
      .out [.str "Input number received from command line: ", .flt (.fin 3)],
      .env "linear_inference_session", .session "data/linear/linear.onnx",
      .out [.str "Model loaded successfully from: ", .str "data/linear/linear.onnx"],
      .createTensor [.fin 3] 1 [1, 1],
      .out [.str "Input data prepared: ", .flt (.fin 3)],
      .out [.str "Input tensor shape: [", .int 1, .str ", ", .int 1, .str "]"],
      .out [.str "Running inference..."],
      .run [(⟨"input", ⟨.FLOAT, [-1, 1, 1], 0⟩⟩ : Node).name] [.tensor [.fin 3] [1, 1]]
        [(⟨"output", ⟨.FLOAT, [-1, 1, 1], 0⟩⟩ : Node).name]] <+:
      (main2 (sampleRuntime rank3Session) "linear" ["3"]).trace :=
  have h := C13_tensor_built_without_descriptor_checks (sampleRuntime rank3Session)
    "linear" rank3Session
  have h3 := h.1 ["1", "2", "3"] [.fin 1, .fin 2, .fin 3]
    (by decide) (by decide) (by decide!) rfl rfl
  ⟨⟨h3.1, h3.2.2 (.tensor [.fin 1, .fin 2, .fin 3] [3, 1]) rfl⟩,
   (h.2 "3" (.fin 3) rfl rfl rfl).2.2.2 (.tensor [.fin 3] [1, 1])
     ⟨"input", ⟨.FLOAT, [-1, 1, 1], 0⟩⟩ ⟨"output", ⟨.FLOAT, [-1, 1, 1], 0⟩⟩ [] []
     rfl rfl rfl rfl⟩

/-- Claim C13 fails as stated: with a model whose input is declared under the name `x`,
and with a model whose input `input` is declared with rank 3, `main3.cpp` on the
arguments `1 2 3` raises no name or rank error when it constructs the tensor: it builds
the tensor named `input` with the shape `[3, 1]` of rank 2 and submits it to the
execution call, and the only error is the one that call returns. -/
theorem C13_counterexample :
    main3 (sampleRuntime renamedSession) "linear" ["1", "2", "3"] =
      .exit
        [.env "linear_inference", .session "data/linear/linear.onnx",
         .createTensor [.fin 1, .fin 2, .fin 3] 3 [3, 1],
         .run ["input"] [.tensor [.fin 1, .fin 2, .fin 3] [3, 1]] ["output"],
         .err [.str "Error: ", .str "Invalid input name"]] 1 ∧
    renamedSession.inputNames = ["x"] ∧
    main3 (sampleRuntime rank3Session) "linear" ["1", "2", "3"] =
      .exit
        [.env "linear_inference", .session "data/linear/linear.onnx",
         .createTensor [.fin 1, .fin 2, .fin 3] 3 [3, 1],
         .run ["input"] [.tensor [.fin 1, .fin 2, .fin 3] [3, 1]] ["output"],
         .err [.str "Error: ", .str "Invalid rank for input"]] 1 ∧
    rank3Session.inputs.map (fun node => node.info.shape.length) = [3] := by
  refine ⟨by decide!, by decide, by decide!, by decide⟩

/-! ## The batch tool on one argument and the scalar tool -/

theorem main_one_arg (rt : Runtime) (prog arg : String) :
    main rt prog [arg] = mainTry rt [arg] := by
  simp [main]

theorem main3_one_arg (rt : Runtime) (prog arg : String) :
    main3 rt prog [arg] = main3Try rt [arg] := by
  simp [main3]

theorem one_arg_same (rt : Runtime) (arg : String) :
    (mainTry rt [arg]).code? = (main3Try rt [arg]).code? ∧
    (mainTry rt [arg]).trace.filter Event.isCall =
      (main3Try rt [arg]).trace.filter Event.isCall ∧
    (mainTry rt [arg]).trace.filterMap Event.verdictWord? =
      (main3Try rt [arg]).trace.filterMap Event.verdictWord? := by
  unfold mainTry main3Try
  cases hstof : rt.stof arg with
  | error e => simp [parseInputs, hstof, catchStd, Outcome.code?, Outcome.trace]
  | ok x =>
    cases henv : rt.createEnv "linear_inference" with
    | error e => simp [parseInputs, hstof, henv, catchStd, Outcome.code?, Outcome.trace]
    | ok u =>
      cases hsess : rt.createSession "data/linear/linear.onnx" with
      | error e =>
        simp [parseInputs, hstof, henv, hsess, catchStd, Outcome.code?, Outcome.trace]
      | ok session =>
        cases htensor : rt.createTensor [x] 1 [1, 1] with
        | error e =>
          simp [parseInputs, hstof, henv, hsess, htensor, catchStd, Outcome.code?,
            Outcome.trace]
        | ok t =>
          cases hrun : session.Run ["input"] [t] ["output"] with
          | error e =>
            simp [parseInputs, hstof, henv, hsess, htensor, hrun, catchStd, Outcome.code?,
              Outcome.trace]
          | ok outs =>
            cases outs with
            | nil =>
              simp [parseInputs, hstof, henv, hsess, htensor, hrun, Outcome.code?,
                Outcome.trace]
            | cons output0 more =>
              cases hdata : output0.GetTensorMutableData with
              | error e =>
                simp [parseInputs, hstof, henv, hsess, htensor, hrun, hdata, catchStd,
                  Outcome.code?, Outcome.trace]
              | ok output_data =>
                cases output_data with
                | nil =>
                  simp [parseInputs, hstof, henv, hsess, htensor, hrun, hdata, resultLoop,
                    Outcome.code?, Outcome.trace]
                | cons y ys =>
                  simp [parseInputs, hstof, henv, hsess, htensor, hrun, hdata, resultLoop,
                    sampleLines, Outcome.code?, Outcome.trace, Event.isCall,
                    Event.verdictWord?]

theorem mainTry_calls (rt : Runtime) (session : Session) (arg : String) (x : F32)
    (t : OrtValue)
    (hstof : rt.stof arg = .ok x)
    (henv : rt.createEnv "linear_inference" = .ok ())
    (hsess : rt.createSession "data/linear/linear.onnx" = .ok session)
    (htensor : rt.createTensor [x] 1 [1, 1] = .ok t) :
    (mainTry rt [arg]).trace.filter Event.isCall = callTrace [x] [1, 1] t := by
  unfold mainTry
  simp only [hstof, henv, hsess, List.length_singleton, htensor]
  repeat' split
  all_goals simp [catchStd, Outcome.trace, callTrace, Event.isCall]

/-- Claim C14.  On one argument `main3.cpp` and `main.cpp` agree: they end with the
same exit code (or both without one), make the same library calls with the same
arguments, and print the same verdict word.  When the argument parses to `x` and the
tensor is created, the calls of both are those on the tensor of values `[x]` and shape
`[1, 1]`, bound to the input name `input` with the output `output` requested; when the
argument does not parse, both runs are the same error line and the exit code 1; and
without any argument both return 1 without a library call. -/
theorem C14_batch_of_one_agrees_with_scalar (rt : Runtime) (prog arg : String) :
    ((main rt prog [arg]).code? = (main3 rt prog [arg]).code? ∧
      (main rt prog [arg]).trace.filter Event.isCall =
        (main3 rt prog [arg]).trace.filter Event.isCall ∧
      (main rt prog [arg]).trace.filterMap Event.verdictWord? =
        (main3 rt prog [arg]).trace.filterMap Event.verdictWord?) ∧
    (∀ (session : Session) (x : F32) (t : OrtValue),
      rt.stof arg = .ok x →
      rt.createEnv "linear_inference" = .ok () →
      rt.createSession "data/linear/linear.onnx" = .ok session →
      rt.createTensor [x] 1 [1, 1] = .ok t →
      (main rt prog [arg]).trace.filter Event.isCall = callTrace [x] [1, 1] t ∧
      (main3 rt prog [arg]).trace.filter Event.isCall = callTrace [x] [1, 1] t) ∧
    (∀ e, rt.stof arg = .error e →
      main rt prog [arg] = .exit [.err [.str "Error: ", .str e.what]] 1 ∧
      main3 rt prog [arg] = .exit [.err [.str "Error: ", .str e.what]] 1) ∧
    ((main rt prog []).code? = some 1 ∧ (main3 rt prog []).code? = some 1 ∧
      (main rt prog []).trace.filter Event.isCall = [] ∧
      (main3 rt prog []).trace.filter Event.isCall = []) := by
  have hsame := one_arg_same rt arg
  rw [← main_one_arg rt prog arg, ← main3_one_arg rt prog arg] at hsame
  refine ⟨hsame, ?_, ?_, ?_⟩
  · intro session x t hstof henv hsess htensor
    have h1 := mainTry_calls rt session arg x t hstof henv hsess htensor
    rw [← main_one_arg rt prog arg] at h1
    exact ⟨h1, hsame.2.1 ▸ h1⟩
  · intro e he
    constructor
    · rw [main_one_arg]
      simp [mainTry, he, catchStd]
    · rw [main3_one_arg]
      simp [main3Try, parseInputs, he, catchStd]
  · simp [main, main3, Outcome.code?, Outcome.trace, Event.isCall]

/-- Witness of C14: on the argument `3` with the doubling model both tools create the
tensor of values `[3]` and shape `[1, 1]` and run it under the names `input` and
`output`; on the argument `abc` both report the parse error. -/
theorem C14_batch_of_one_agrees_with_scalar_witness :
    ((main (sampleRuntime doublingSession) "linear" ["3"]).trace.filter Event.isCall =
        callTrace [.fin 3] [1, 1] (.tensor [.fin 3] [1, 1]) ∧
      (main3 (sampleRuntime doublingSession) "linear" ["3"]).trace.filter Event.isCall =
        callTrace [.fin 3] [1, 1] (.tensor [.fin 3] [1, 1])) ∧
    (main (sampleRuntime doublingSession) "linear" ["abc"] =
        .exit [.err [.str "Error: ", .str (StofError.invalid_argument "stof").what]] 1 ∧
      main3 (sampleRuntime doublingSession) "linear" ["abc"] =
        .exit [.err [.str "Error: ", .str (StofError.invalid_argument "stof").what]] 1) :=
  ⟨(C14_batch_of_one_agrees_with_scalar (sampleRuntime doublingSession) "linear" "3").2.1
      doublingSession (.fin 3) (.tensor [.fin 3] [1, 1]) rfl rfl rfl rfl,
   (C14_batch_of_one_agrees_with_scalar (sampleRuntime doublingSession) "linear" "abc").2.2.1
      (.invalid_argument "stof") rfl⟩

end OrtTutorial
